import Mathlib

/-!
Output decoding in `examples/osrt_cpp`: a shallow embedding

The two programs `dlr_main.cpp` and `tfl_main.cpp` turn the raw output tensors of an
inference run into a classification, a detection or a segmentation result.  This file
embeds the decoding code of both as Lean functions and proves properties of it.

Conventions of the embedding.

* `float` values are an arbitrary type `F`; the operations the code applies to them
  (`>`, `/`, the literal `0`, conversion from `int64_t`) are arguments of the functions
  that use them, so every theorem holds for IEEE arithmetic as for any other.
* A raw pointer into a tensor (`float *out_tensor`) is a function `Int → F`: what a read
  at that offset returns.
* A `std::vector` is a `List`; an access outside it has no defined result, which is the
  `none` of an `Option`.
* `int` is a 32 bit integer: a value stored into an `int` goes through `toInt32`.
* Functions of the repository that are not in these two files (`getTopN`,
  `blendSegMask`, `overlayTopNClasses`, `readLabelsFile`) and library calls
  (`cv::resize`, `GetDLROutput`) are parameters, or inputs that carry their result.
* The logging macros `LOG_INFO` and `LOG_ERROR` come from a header outside these files;
  a call of them has no effect on the state the decoders work on.  The two calls of
  `LOG_ERROR` that pass the `char` `*output_type` for a `%s` (`dlr_main.cpp`, lines 185
  and 240) are kept: a logger that formats its arguments reads that `char` as a pointer,
  which is not defined, so the decoders of dlr take as an argument whether the logger
  formats (`log_error_formats`).  Index arithmetic on `int` is done in the integers: the
  indices stay below the number of elements of a tensor.
-/

set_option autoImplicit false

/-- The value an `int` holds after a 64 bit (or wider) integer is stored into it. -/
def toInt32 (x : Int) : Int := (x + 2147483648) % 4294967296 - 2147483648

/-- Element access `v[i]` of a `std::vector` with a signed index: `none` outside the
vector (a negative `int` index converts to a huge `size_t`). -/
def vecAt {α : Type} (v : List α) (i : Int) : Option α :=
  if i < 0 then none else v.get? i.toNat

/-- The values of a list of reads when every read is inside its vector, else `none`. -/
def allSome {α : Type} : List (Option α) → Option (List α)
  | [] => some []
  | none :: _ => none
  | some a :: rest => (allSome rest).map (fun as => a :: as)

/-- The two status codes of `dlr_main.cpp` (macros of a header outside these files). -/
inductive Status where
  | RETURN_SUCCESS
  | RETURN_FAIL
  deriving DecidableEq, Repr

/-- A `cv::Mat` as far as the decoders look at it: its size and its pixel buffer,
whose contents are of an arbitrary type `D`. -/
structure Mat (D : Type) where
  cols : Int
  rows : Int
  data : D
  deriving DecidableEq, Repr

/-- The value a `size_t` holds after an integer expression is converted to it. -/
def toSizeT (x : Int) : Int := x % 18446744073709551616

/-- The arguments of one call of `blendSegMask`, after the buffers: `img.cols`,
`img.rows`, and the width and height of the mask. -/
structure BlendCall where
  cols : Int
  rows : Int
  width : Int
  height : Int
  deriving DecidableEq, Repr

/-- The library call `cv::resize(img, img, cv::Size(width, height), 0, 0, cv::INTER_AREA)`.
OpenCV asserts that the source is not empty and, the scale factors being 0, that the
target size is positive, and throws otherwise (`none`); the image it leaves has the
target size.  `interp` computes the pixels of the resized image. -/
def cvResize {D : Type} (interp : Mat D → Int → Int → D) (img : Mat D)
    (width height : Int) : Option (Mat D) :=
  if 0 < img.cols ∧ 0 < img.rows ∧ 0 < width ∧ 0 < height then
    some ⟨width, height, interp img width height⟩
  else none

namespace dlr

/-- The label offset of `prepClassificationResult` (lines 167-172):
`if (output_size == 1001) outputoffset = 0; else outputoffset = 1;`. -/
def outputoffset (output_size : Int) : Int :=
  if output_size = 1001 then 0 else 1

/-- The index at which `labels` is read for one top result (line 178):
`labels[index + outputoffset]`. -/
def labelIndex (output_size : Int) (index : Int) : Int :=
  index + outputoffset output_size

/-- The logging loop of `prepClassificationResult` (lines 173-179): for every top result
the label read at `index + outputoffset`; `none` when one read is outside `labels`. -/
def loggedLabels {F : Type} (labels : List String) (output_size : Int) :
    List (F × Int) → Option (List String)
  | [] => some []
  | result :: rest =>
    match vecAt labels (labelIndex output_size result.2) with
    | none => none
    | some l =>
      match loggedLabels labels output_size rest with
      | none => none
      | some ls => some (l :: ls)

/-- What a call of `prepClassificationResult` leaves behind: the status it returns, the
labels it logged and the image. -/
structure ClassificationResult (F D : Type) where
  status : Status
  top_results : List (F × Int)
  logged : List String
  img : Mat D
  deriving DecidableEq

/-- The function `prepClassificationResult` (lines 141-189).

* `getTopN prediction prediction_size num_results threshold input_floating` and
  `overlayTopNClasses` are the repository's functions of those names;
* `threshold` is the constant `0.001f`;
* `output_type` is the type tag of output 0;
* `fetched` is the result of `fetchOutputTensors<float>`: `none` when `GetDLROutput`
  failed for some output, else the output vectors;
* `labels_file` is the result of `readLabelsFile`: `none` for a non-zero status;
* `log_error_formats` tells whether `LOG_ERROR` formats its arguments as `printf` does:
  for a tag other than `"float32"` line 185 passes the `char` `*output_type` for `%s`.

The result is `none` when the call reads outside a vector (`outputs[0]` of no outputs,
a label index outside `labels`) or has a `char` formatted as a string. -/
def prepClassificationResult {F D : Type} (log_error_formats : Bool)
    (getTopN : List F → Int → Int → F → Bool → List (F × Int))
    (overlayTopNClasses : D → List (F × Int) → List String → Int → Int → Int → D)
    (threshold : F) (img : Mat D) (number_of_results : Int)
    (labels_file : Option (List String))
    (output_type : String) (fetched : Option (List (List F))) :
    Option (ClassificationResult F D) :=
  if output_type = "float32" then
    match fetched with
    | none => some ⟨Status.RETURN_FAIL, [], [], img⟩
    | some outputs =>
      match outputs with
      | [] => none
      | outputs0 :: _ =>
        let top_results := getTopN outputs0 1000 number_of_results threshold true
        match labels_file with
        | none => some ⟨Status.RETURN_FAIL, top_results, [], img⟩
        | some labels =>
          let output_size : Int := toInt32 outputs0.length
          match loggedLabels labels output_size top_results with
          | none => none
          | some logged =>
            let num_results := number_of_results
            some ⟨Status.RETURN_SUCCESS, top_results, logged,
              ⟨img.cols, img.rows,
                overlayTopNClasses img.data top_results labels img.cols img.rows num_results⟩⟩
  else
    if log_error_formats then none
    else some ⟨Status.RETURN_FAIL, [], [], img⟩

/-- What a call of `prepSegResult` leaves behind: the status it returns, the image,
whether `cv::resize` was called, and the arguments of the call of `blendSegMask` when
there was one. -/
structure SegResult (D : Type) where
  status : Status
  img : Mat D
  resized : Bool
  blend : Option BlendCall
  deriving DecidableEq

/-- The function `prepSegResult` (lines 202-244).

* `interp` is the pixel computation of `cv::resize`;
* `blendSegMask_int64` and `blendSegMask_float` are the two instances of the
  repository's template `blendSegMask`, applied to `img.data`, the mask `outputs[0]`,
  `img.cols`, `img.rows`, `wanted_width`, `wanted_height` and `alpha`;
* `output_shape` and `output_type` are the shape and the type tag of output 0;
* `outputs_int64`, `outputs_float` are the vectors `fetchOutputTensors` leaves in
  `outputs` (its status is not looked at);
* `log_error_formats` tells whether `LOG_ERROR` formats its arguments as `printf` does:
  for a tag other than `"int64"` and `"float32"` line 240 passes the `char`
  `*output_type` for `%s`.

The result is `none` when the call reads outside an array (`output_shape[2]`,
`output_shape[3]`, `outputs[0]`), `cv::resize` throws, or a `char` is formatted as a
string. -/
def prepSegResult {F D : Type} (log_error_formats : Bool)
    (interp : Mat D → Int → Int → D)
    (blendSegMask_int64 : D → List Int → Int → Int → Int → Int → F → D)
    (blendSegMask_float : D → List F → Int → Int → Int → Int → F → D)
    (alpha : F) (img : Mat D) (output_shape : List Int) (output_type : String)
    (outputs_int64 : List (List Int)) (outputs_float : List (List F))
    (wanted_width wanted_height : Int) : Option (SegResult D) :=
  match vecAt output_shape 2, vecAt output_shape 3 with
  | some shape2, some shape3 =>
    let after_resize : Option (Mat D × Int × Int × Bool) :=
      if wanted_height ≠ shape2 ∨ wanted_width ≠ shape3 then
        let wanted_height := toInt32 shape2
        let wanted_width := toInt32 shape3
        (cvResize interp img wanted_width wanted_height).map
          (fun img => (img, wanted_width, wanted_height, true))
      else some (img, wanted_width, wanted_height, false)
    match after_resize with
    | none => none
    | some (img, wanted_width, wanted_height, resized) =>
      if output_type = "int64" then
        match outputs_int64 with
        | [] => none
        | outputs0 :: _ =>
          some ⟨Status.RETURN_SUCCESS,
            ⟨img.cols, img.rows,
              blendSegMask_int64 img.data outputs0 img.cols img.rows
                wanted_width wanted_height alpha⟩,
            resized,
            some ⟨img.cols, img.rows, wanted_width, wanted_height⟩⟩
      else if output_type = "float32" then
        match outputs_float with
        | [] => none
        | outputs0 :: _ =>
          some ⟨Status.RETURN_SUCCESS,
            ⟨img.cols, img.rows,
              blendSegMask_float img.data outputs0 img.cols img.rows
                wanted_width wanted_height alpha⟩,
            resized,
            some ⟨img.cols, img.rows, wanted_width, wanted_height⟩⟩
      else
        if log_error_formats then none
        else some ⟨Status.RETURN_FAIL, img, resized, none⟩
  | _, _ => none

/-- The erase loop of `runInference` (lines 430-436), with the iterator `it` as an index
into `temp`: an entry equal to 1 is erased and the iterator stays on that position
(`it--` followed by the `it++` of the loop), any other entry is stepped over. -/
def eraseLoop (temp : List Int) (it : Nat) : List Int :=
  if h : it < temp.length then
    if temp.get ⟨it, h⟩ = 1 then eraseLoop (temp.eraseIdx it) it
    else eraseLoop temp (it + 1)
  else temp
termination_by temp.length - it
decreasing_by
  all_goals simp_wf
  · rw [List.length_eraseIdx]
    simp [h]
    omega
  · omega

/-- The computation of `num_val_tensor` (lines 429-441) from the shape of a tensor: 1
when one dimension is left after the erase loop, else `temp[temp.size() - 1]`, stored
into an `int`.  The index is a `size_t`, so it is the largest `size_t` when `temp` is
empty; the result is `none` when the index is outside `temp`. -/
def num_val_tensor (tensor_shape : List Int) : Option Int :=
  let temp := eraseLoop tensor_shape 0
  if temp.length = 1 then some 1
  else
    let last : Int :=
      if temp.length = 0 then 18446744073709551615 else (temp.length : Int) - 1
    (vecAt temp last).map toInt32

/-- One output of the DLR model, as the detection branch reads it: its shape (the entry
of `tensor_shapes_vec` that lines 393-408 store for it), its type tag, whether the pointer returned for the type tag is the address of the literal
`"int64"` of `dlr_main.cpp` (the test of line 457 compares pointers), its number of
elements, its contents read as `float` and as `int64_t`, and whether `GetDLROutput`
returns 0 for it. -/
structure OutputTensor (F : Type) where
  shape : List Int
  tensor_type : String
  type_is_int64_literal : Bool
  size : Nat
  floats : Nat → F
  int64s : Nat → Int
  get_output_ok : Bool

/-- The buffer `std::vector<T> output(count, 0)` after the call of `GetDLROutput` on it
(lines 447-452, 459-464), for a tensor of `size` elements `contents`; `count` is the
product `nboxes * num_val_tensor`, computed in `int64_t`.  The outer `none` is a run
that leaves defined behaviour: the product does not fit an `int64_t`, the vector cannot
be allocated (negative `count`), or the copy runs over its end (`count < size`).  The
inner `none` is a `GetDLROutput` that does not return 0; otherwise the buffer holds the
tensor, followed by the zeros it was created with. -/
def filledOutput {T : Type} (zero : T) (count : Int) (size : Nat) (contents : Nat → T)
    (get_output_ok : Bool) : Option (Option (List T)) :=
  if count < 0 ∨ 9223372036854775808 ≤ count then none
  else if get_output_ok = false then some none
  else if count.toNat < size then none
  else some (some ((List.range count.toNat).map
    (fun k => if k < size then contents k else zero)))

/-- The rows appended to `f_tensor_unformatted` for one tensor (lines 473-481): for
every `j < nboxes` the values `f_tensor[j * num_val_tensor + k]`, `k < num_val_tensor`,
the index computed in `size_t`; `none` when a read is outside `f_tensor`. -/
def tensorRows {F : Type} (f_tensor : List F) (nboxes : Nat) (num_val_tensor : Int) :
    Option (List (List F)) :=
  allSome ((List.range nboxes).map (fun (j : Nat) =>
    allSome ((List.range (toSizeT num_val_tensor).toNat).map (fun (k : Nat) =>
      vecAt f_tensor (toSizeT ((j : Int) * toSizeT num_val_tensor + (k : Int)))))))

/-- The outcome of the loop that builds the detection table: `RETURN_FAIL`, or the table
`f_tensor_unformatted` that is handed to `prepDetectionResult`. -/
inductive TableOutcome (F : Type) where
  | RETURN_FAIL
  | table (f_tensor_unformatted : List (List F))
  deriving DecidableEq

/-- The loop over the outputs in the detection branch of `runInference` (lines 415-482),
from output `i` on; `f_tensor_unformatted` is the table built so far, `zero` is the
`float` 0 and `ofInt64` the conversion from `int64_t` to `float`.  The result is `none`
when the run leaves defined behaviour (a read or write outside a vector, a vector that
cannot be allocated). -/
def tableLoop {F : Type} (zero : F) (ofInt64 : Int → F) (nboxes : Nat) :
    List (OutputTensor F) → List (List F) → Option (TableOutcome F)
  | [], f_tensor_unformatted => some (TableOutcome.table f_tensor_unformatted)
  | tensor :: rest, f_tensor_unformatted =>
    match num_val_tensor tensor.shape with
    | none => none
    | some num_val =>
      let converted : Option (Option (List F)) :=
        if tensor.tensor_type = "float32" then
          filledOutput zero ((nboxes : Int) * num_val) tensor.size tensor.floats
            tensor.get_output_ok
        else if tensor.type_is_int64_literal then
          (filledOutput (0 : Int) ((nboxes : Int) * num_val) tensor.size tensor.int64s
            tensor.get_output_ok).map (fun fetched => fetched.map (fun output => output.map ofInt64))
        else some none
      match converted with
      | none => none
      | some none => some TableOutcome.RETURN_FAIL
      | some (some f_tensor) =>
        match tensorRows f_tensor nboxes num_val with
        | none => none
        | some rows => tableLoop zero ofInt64 nboxes rest (f_tensor_unformatted ++ rows)

/-- The detection branch of `runInference` up to the call of `prepDetectionResult`
(lines 409-482): `nboxes` is the number of elements of output 0, and the table is built
from the empty one.  With no output at all `nboxes` is never set (`none`). -/
def detectionTable {F : Type} (zero : F) (ofInt64 : Int → F)
    (outputs : List (OutputTensor F)) : Option (Nat × TableOutcome F) :=
  match outputs with
  | [] => none
  | output0 :: _ =>
    let nboxes := output0.size
    (tableLoop zero ofInt64 nboxes outputs []).map (fun r => (nboxes, r))

/-- The rows the table holds for one `float32` tensor, in the words of the description
of the table: one row for every `j < nboxes`, holding the `num_val_tensor` values of the
tensor from element `j * num_val_tensor` on, and the `float` 0 past the last element of
the tensor. -/
def tensorBlock {F : Type} (zero : F) (nboxes : Nat) (tensor : OutputTensor F) :
    List (List F) :=
  (List.range nboxes).map (fun j =>
    (List.range ((num_val_tensor tensor.shape).getD 0).toNat).map (fun k =>
      if j * ((num_val_tensor tensor.shape).getD 0).toNat + k < tensor.size
      then tensor.floats (j * ((num_val_tensor tensor.shape).getD 0).toNat + k)
      else zero))

/-- A `float32` tensor that the loop can copy into a buffer of `nboxes * num_val_tensor`
elements: its values-per-detection is defined and not negative, `GetDLROutput`
succeeds, the tensor is not longer than the buffer, and the size of the buffer fits an
`int64_t`. -/
def Copyable {F : Type} (nboxes : Nat) (tensor : OutputTensor F) : Prop :=
  tensor.tensor_type = "float32" ∧ tensor.get_output_ok = true ∧
    ∃ num_val : Int, num_val_tensor tensor.shape = some num_val ∧ 0 ≤ num_val ∧
      (tensor.size : Int) ≤ (nboxes : Int) * num_val ∧
      (nboxes : Int) * num_val < 9223372036854775808

/-- A `float32` tensor of the given shape and contents, for which `GetDLROutput`
succeeds. -/
def floatTensor (shape : List Int) (contents : List ℚ) : OutputTensor ℚ :=
  ⟨shape, "float32", false, contents.length, fun k => contents.getD k 0, fun _ => 0, true⟩

end dlr

namespace tflite

/-- The element types of a `TfLiteTensor` (the enum `TfLiteType` of TensorFlow Lite). -/
inductive TfLiteType where
  | kTfLiteNoType
  | kTfLiteFloat32
  | kTfLiteInt32
  | kTfLiteUInt8
  | kTfLiteInt64
  | kTfLiteString
  | kTfLiteBool
  | kTfLiteInt16
  | kTfLiteComplex64
  | kTfLiteInt8
  | kTfLiteFloat16
  | kTfLiteFloat64
  | kTfLiteComplex128
  deriving DecidableEq, Repr

/-- A `TfLiteTensor` as the decoders read it: its type tag, its `dims`, and the views
`data.f`, `data.i32`, `data.i64`, `data.uint8` of its buffer. -/
structure TfLiteTensor (F : Type) where
  type : TfLiteType
  dims : List Int
  f : Int → F
  i32 : Int → Int
  i64 : Int → Int
  uint8 : Int → Nat

/-- The label offset of the classification branch of `RunInference` (lines 330-334). -/
def outputoffset (output_size : Int) : Int :=
  if output_size = 1001 then 0 else 1

/-- The index at which `labels` is read for one top result (line 364):
`labels[index + outputoffset]`. -/
def labelIndex (output_size : Int) (index : Int) : Int :=
  index + outputoffset output_size

/-- The logging loop of the classification branch (lines 360-365): for every top result
the label read at `index + outputoffset`; `none` when one read is outside `labels`. -/
def loggedLabels {F : Type} (labels : List String) (output_size : Int) :
    List (F × Int) → Option (List String)
  | [] => some []
  | result :: rest =>
    match vecAt labels (labelIndex output_size result.2) with
    | none => none
    | some l =>
      match loggedLabels labels output_size rest with
      | none => none
      | some ls => some (l :: ls)

/-- The vectors the fused-tensor detection loop fills, and its counter (lines 282-283). -/
structure Detections (F : Type) where
  num_detections : Int
  detectection_scores : List F
  detectection_classes : List F
  detectection_location : List F
  deriving DecidableEq, Repr

/-- One iteration of the loop over the rows of the fused tensor (lines 290-306), for row
`i`.  `gt a b` is `a > b` on `float`, `div` is `/` on `float`; `inDataHeight` is
`modelInfo->m_postProcCfg.inDataHeight` as the divisor it is converted to. -/
def detectionStep {F : Type} (gt : F → F → Bool) (div : F → F → F)
    (out_tensor : Int → F) (res_dim : Int) (inDataHeight threshold : F)
    (st : Detections F) (i : Int) : Detections F :=
  let score := out_tensor (i * res_dim + res_dim - 2)
  let class_val := out_tensor (i * res_dim + res_dim - 1)
  let loc_0 := div (out_tensor (i * res_dim + 1)) inDataHeight
  let loc_1 := div (out_tensor (i * res_dim + 2)) inDataHeight
  let loc_2 := div (out_tensor (i * res_dim + 3)) inDataHeight
  let loc_3 := div (out_tensor (i * res_dim + 4)) inDataHeight
  if gt score threshold then
    ⟨st.num_detections + 1,
      st.detectection_scores ++ [score],
      st.detectection_classes ++ [class_val],
      st.detectection_location ++ [loc_0, loc_1, loc_2, loc_3]⟩
  else st

/-- The loop `for (int i = 0; i < num_res; i++)` of lines 288-307, run from the empty
vectors and `num_detections = 0`. -/
def detectionLoop {F : Type} (gt : F → F → Bool) (div : F → F → F)
    (out_tensor : Int → F) (res_dim num_res : Int) (inDataHeight threshold : F) :
    Detections F :=
  (List.range num_res.toNat).foldl
    (fun st (i : Nat) =>
      detectionStep gt div out_tensor res_dim inDataHeight threshold st (i : Int))
    ⟨0, [], [], []⟩

/-- The fused-tensor detection branch of `RunInference` (lines 281-307), the `else` of
the test on the formatter: `res_dim` and `num_res` are the last two entries of the
`dims` of output 0, and the loop runs over `out_tensor = data.f`.  The result is `none`
when `dims` has fewer than two entries (the reads `data[size - 1]`, `data[size - 2]`
are then outside the array). -/
def fusedDetection {F : Type} (gt : F → F → Bool) (div : F → F → F)
    (output0 : TfLiteTensor F) (inDataHeight threshold : F) : Option (Detections F) :=
  let out_tensor := output0.f
  let output_dims := output0.dims
  match vecAt output_dims ((output_dims.length : Int) - 1),
    vecAt output_dims ((output_dims.length : Int) - 2) with
  | some res_dim, some num_res =>
    some (detectionLoop gt div out_tensor res_dim num_res inDataHeight threshold)
  | _, _ => none

/-- How a run of `RunInference` ends: by `exit(code)`, or by returning to `main`. -/
inductive Outcome (R : Type) where
  | exit (code : Int)
  | returned (r : R)
  deriving DecidableEq

/-- What the segmentation branch leaves behind: the image, and the arguments of the call
of `blendSegMask` when there was one. -/
structure SegResult (D : Type) where
  img : Mat D
  blend : Option BlendCall
  deriving DecidableEq

/-- The segmentation branch of `RunInference` (lines 235-255), followed by the return of
the function (the code after the branch writes the image to a file and has no way to
leave but the end of the function).  `blendSegMask_int32`, `blendSegMask_int64`,
`blendSegMask_float` are the three instances of the repository's template
`blendSegMask`; `wanted_width`, `wanted_height` are the `outDataWidth`, `outDataHeight`
of the configuration (lines 168-169). -/
def segmentation {F D : Type}
    (blendSegMask_int32 : D → (Int → Int) → Int → Int → Int → Int → F → D)
    (blendSegMask_int64 : D → (Int → Int) → Int → Int → Int → Int → F → D)
    (blendSegMask_float : D → (Int → F) → Int → Int → Int → Int → F → D)
    (alpha : F) (img : Mat D) (output0 : TfLiteTensor F)
    (wanted_width wanted_height : Int) : Outcome (SegResult D) :=
  let type := output0.type
  if type = TfLiteType.kTfLiteInt32 then
    let outputTensor := output0.i32
    Outcome.returned ⟨⟨img.cols, img.rows,
        blendSegMask_int32 img.data outputTensor img.cols img.rows
          wanted_width wanted_height alpha⟩,
      some ⟨img.cols, img.rows, wanted_width, wanted_height⟩⟩
  else if type = TfLiteType.kTfLiteInt64 then
    let outputTensor := output0.i64
    Outcome.returned ⟨⟨img.cols, img.rows,
        blendSegMask_int64 img.data outputTensor img.cols img.rows
          wanted_width wanted_height alpha⟩,
      some ⟨img.cols, img.rows, wanted_width, wanted_height⟩⟩
  else if type = TfLiteType.kTfLiteFloat32 then
    let outputTensor := output0.f
    Outcome.returned ⟨⟨img.cols, img.rows,
        blendSegMask_float img.data outputTensor img.cols img.rows
          wanted_width wanted_height alpha⟩,
      some ⟨img.cols, img.rows, wanted_width, wanted_height⟩⟩
  else
    Outcome.returned ⟨img, none⟩

/-- What the classification branch leaves behind: the top results, the labels it logged
and the image. -/
structure ClassificationResult (F D : Type) where
  top_results : List (F × Int)
  logged : List String
  img : Mat D
  deriving DecidableEq

/-- The classification branch of `RunInference` (lines 321-368), followed by the return
of the function.  `get_top_n_float` and `get_top_n_uint8` are the two instances of the
repository's template `get_top_n`, `threshold` is the constant `0.001f`, `labels_file`
the result of `ReadLabelsFile` (`none` for a non-zero status).  The result is `none`
when a read is outside an array (`dims` without entries, a label index outside
`labels`). -/
def classification {F D : Type}
    (get_top_n_float : (Int → F) → Int → Int → F → Bool → List (F × Int))
    (get_top_n_uint8 : (Int → Nat) → Int → Int → F → Bool → List (F × Int))
    (overlayTopNClasses : D → List (F × Int) → List String → Int → Int → Int → D)
    (threshold : F) (img : Mat D) (number_of_results : Int)
    (labels_file : Option (List String)) (output0 : TfLiteTensor F) :
    Option (Outcome (ClassificationResult F D)) :=
  let output_dims := output0.dims
  match vecAt output_dims ((output_dims.length : Int) - 1) with
  | none => none
  | some output_size =>
    let top : Option (List (F × Int)) :=
      match output0.type with
      | TfLiteType.kTfLiteFloat32 =>
        some (get_top_n_float output0.f output_size number_of_results threshold true)
      | TfLiteType.kTfLiteUInt8 =>
        some (get_top_n_uint8 output0.uint8 output_size number_of_results threshold false)
      | _ => none
    match top with
    | none => some (Outcome.exit (-1))
    | some top_results =>
      match labels_file with
      | none => some (Outcome.exit (-1))
      | some labels =>
        match loggedLabels labels output_size top_results with
        | none => none
        | some logged =>
          let num_results := 5
          some (Outcome.returned ⟨top_results, logged,
            ⟨img.cols, img.rows,
              overlayTopNClasses img.data top_results labels img.cols img.rows num_results⟩⟩)

/-- The score of row `i` of the fused tensor: the second last of its `res_dim` values. -/
def rowScore {F : Type} (out_tensor : Int → F) (res_dim : Int) (i : Nat) : F :=
  out_tensor ((i : Int) * res_dim + res_dim - 2)

/-- The class of row `i` of the fused tensor: the last of its `res_dim` values. -/
def rowClass {F : Type} (out_tensor : Int → F) (res_dim : Int) (i : Nat) : F :=
  out_tensor ((i : Int) * res_dim + res_dim - 1)

/-- The four coordinates of row `i` of the fused tensor: its values 1 to 4, each divided
by `inDataHeight`. -/
def rowLocation {F : Type} (div : F → F → F) (out_tensor : Int → F) (res_dim : Int)
    (inDataHeight : F) (i : Nat) : List F :=
  [div (out_tensor ((i : Int) * res_dim + 1)) inDataHeight,
   div (out_tensor ((i : Int) * res_dim + 2)) inDataHeight,
   div (out_tensor ((i : Int) * res_dim + 3)) inDataHeight,
   div (out_tensor ((i : Int) * res_dim + 4)) inDataHeight]

/-- The rows a filter by score keeps: the rows `0, 1, ..., num_res - 1` of the tensor
whose score is greater than the threshold, in the order of the tensor. -/
def keptRows {F : Type} (gt : F → F → Bool) (out_tensor : Int → F) (res_dim num_res : Int)
    (threshold : F) : List Nat :=
  (List.range num_res.toNat).filter (fun i => gt (rowScore out_tensor res_dim i) threshold)

/-- The offsets into `out_tensor` that one iteration of the fused-tensor loop reads for
row `i` (lines 290-296): the four coordinates at columns 1 to 4 of the row, the score at
column `res_dim - 2` and the class at column `res_dim - 1`. -/
def columnsRead (res_dim : Int) (i : Int) : List Int :=
  [i * res_dim + 1, i * res_dim + 2, i * res_dim + 3, i * res_dim + 4,
   i * res_dim + res_dim - 2, i * res_dim + res_dim - 1]

/-- The fields `scale` and `mean` of `modelInfo->m_preProcCfg`, and its other fields,
whose contents are of an arbitrary type `C`. -/
structure PreprocessImageConfig (F C : Type) where
  scale : List F
  mean : List F
  others : C
  deriving DecidableEq

/-- What the switch on the input type leaves behind: the image, the configuration
`modelInfo->m_preProcCfg` after the switch, and the configuration that `preprocImage`
was called with. -/
structure InputResult (F C D : Type) where
  img : Mat D
  m_preProcCfg : PreprocessImageConfig F C
  preprocessed_with : PreprocessImageConfig F C
  deriving DecidableEq

/-- The switch on the type of the input tensor (lines 185-208).  `preprocImage_float`
and `preprocImage_uint8` are the two instances of the repository's template
`preprocImage`, as functions of the configuration they are passed: they give the image
and the configuration as the call leaves it (the configuration itself when
`preprocImage` does not write to it).  `one` and `zero` are the `float` values 1 and 0
of the vectors `{1, 1, 1}` and `{0, 0, 0}`. -/
def preprocessInput {F C D : Type}
    (preprocImage_float : PreprocessImageConfig F C → Mat D × PreprocessImageConfig F C)
    (preprocImage_uint8 : PreprocessImageConfig F C → Mat D × PreprocessImageConfig F C)
    (one zero : F) (input_type : TfLiteType) (m_preProcCfg : PreprocessImageConfig F C) :
    Outcome (InputResult F C D) :=
  match input_type with
  | TfLiteType.kTfLiteFloat32 =>
    let called := preprocImage_float m_preProcCfg
    Outcome.returned ⟨called.1, called.2, m_preProcCfg⟩
  | TfLiteType.kTfLiteUInt8 =>
    let temp_scale := m_preProcCfg.scale
    let temp_mean := m_preProcCfg.mean
    let cfg1 : PreprocessImageConfig F C :=
      ⟨[one, one, one], m_preProcCfg.mean, m_preProcCfg.others⟩
    let cfg2 : PreprocessImageConfig F C := ⟨cfg1.scale, [zero, zero, zero], cfg1.others⟩
    let called := preprocImage_uint8 cfg2
    let cfg3 : PreprocessImageConfig F C := ⟨temp_scale, called.2.mean, called.2.others⟩
    let cfg4 : PreprocessImageConfig F C := ⟨cfg3.scale, temp_mean, cfg3.others⟩
    Outcome.returned ⟨called.1, cfg4, cfg2⟩
  | _ => Outcome.exit (-1)

/-- A buffer holding the given values from offset 0 on (and `0` elsewhere). -/
def bufferOf (vals : List ℚ) : Int → ℚ :=
  fun i => if i < 0 then 0 else vals.getD i.toNat 0

/-- The comparison `a > b` on exact values. -/
def gtQ (a b : ℚ) : Bool := decide (a > b)

/-- The quotient `a / b` on exact values. -/
def divQ (a b : ℚ) : ℚ := a / b

/-- The tensor of the example: one row `[10, 20, 50, 80, 3, 0.8]`, of `dims` `[1, 1, 6]`. -/
def exampleRow : TfLiteTensor ℚ :=
  ⟨TfLiteType.kTfLiteFloat32, [1, 1, 6], bufferOf [10, 20, 50, 80, 3, 4 / 5],
    fun _ => 0, fun _ => 0, fun _ => 0⟩

end tflite


namespace dlr

/-- What the steps of `runInference` before and after the decoding give on one run: the
device type of the settings, the status of `CreateDLRModel`, the number of inputs of the
model, the status of `GetDLRInputName`, the data layout and the task type of the
configuration, whether `malloc` gave a buffer for the image, the type of the input, the
status of `SetDLRInput` and of `RunDLRModel`, and whether `cv::imwrite` wrote the
file. -/
structure RunSteps where
  device_type : String
  create_model_status : Int
  num_inputs : Int
  input_name_status : Int
  dataLayout : String
  image_data_allocated : Bool
  input_type : String
  set_input_status : Int
  run_model_status : Int
  taskType : String
  imwrite_check : Bool
  deriving DecidableEq, Repr

/-- The value with which the task branch of `runInference` (lines 379-495) leaves the
function: `some (some RETURN_FAIL)` when the decoder of the task returned
`RETURN_FAIL`, `some none` when the branch is left without a `return` (the decoder did
not fail, or the task type is none of the three), and `none` when the decoder left
defined behaviour.  `classification` is the result of `prepClassificationResult`,
`detection` the result of the table loop, `prepDetectionResult` the status of the
repository's function of that name on the table and `nboxes`, `segmentation` the result
of `prepSegResult`. -/
def taskBranch {F D : Type} (taskType : String)
    (classification : Option (ClassificationResult F D))
    (detection : Option (Nat × TableOutcome F))
    (prepDetectionResult : List (List F) → Nat → Status)
    (segmentation : Option (SegResult D)) : Option (Option Status) :=
  if taskType = "classification" then
    match classification with
    | none => none
    | some r =>
      if r.status = Status.RETURN_FAIL then some (some Status.RETURN_FAIL) else some none
  else if taskType = "detection" then
    match detection with
    | none => none
    | some (_, TableOutcome.RETURN_FAIL) => some (some Status.RETURN_FAIL)
    | some (nboxes, TableOutcome.table f_tensor_unformatted) =>
      if prepDetectionResult f_tensor_unformatted nboxes = Status.RETURN_FAIL then
        some (some Status.RETURN_FAIL)
      else some none
  else if taskType = "segmentation" then
    match segmentation with
    | none => none
    | some r =>
      if r.status = Status.RETURN_FAIL then some (some Status.RETURN_FAIL) else some none
  else some none

/-- The control flow of `runInference` (lines 252-508) and the value it returns.  Every
`return` of the function is a `return RETURN_FAIL`; a run that passes all of them writes
the image, logs `Done` and reaches the closing brace of the function, which has no
`return` statement: the value the caller receives is then not defined (`none`). -/
def runInference {F D : Type} (steps : RunSteps)
    (classification : Option (ClassificationResult F D))
    (detection : Option (Nat × TableOutcome F))
    (prepDetectionResult : List (List F) → Nat → Status)
    (segmentation : Option (SegResult D)) : Option Status :=
  if steps.device_type ≠ "cpu" ∧ steps.device_type ≠ "gpu" then some Status.RETURN_FAIL
  else if steps.create_model_status ≠ 0 then some Status.RETURN_FAIL
  else if steps.num_inputs ≠ 1 then some Status.RETURN_FAIL
  else if steps.input_name_status < 0 then some Status.RETURN_FAIL
  else if steps.dataLayout ≠ "NHWC" ∧ steps.dataLayout ≠ "NCHW" then some Status.RETURN_FAIL
  else if steps.image_data_allocated = false then some Status.RETURN_FAIL
  else if steps.input_type ≠ "float32" then some Status.RETURN_FAIL
  else if steps.set_input_status ≠ 0 then some Status.RETURN_FAIL
  else
    match taskBranch steps.taskType classification detection prepDetectionResult
        segmentation with
    | none => none
    | some (some status) => some status
    | some none => none

/-- The test of `main` on the value of `runInference` (line 529):
`runInference(&model, &s) == RETURN_FAIL`; `none` when the value is not defined. -/
def mainTest (returned : Option Status) : Option Bool :=
  returned.map (fun status => decide (status = Status.RETURN_FAIL))

/-- The steps of a run on which nothing fails: device `cpu`, a model with one `float32`
input in layout `NCHW`, every status 0, and the task `classification`. -/
def cleanRun : RunSteps :=
  ⟨"cpu", 0, 1, 0, "NCHW", true, "float32", 0, 0, "classification", true⟩

end dlr

/-! ## Auxiliary facts -/

theorem toInt32_of_range (x : Int) (h0 : -2147483648 ≤ x) (h1 : x < 2147483648) :
    toInt32 x = x := by
  unfold toInt32
  omega

theorem vecAt_natCast {α : Type} (v : List α) (n : Nat) : vecAt v (n : Int) = v.get? n := by
  simp [vecAt]

theorem vecAt_length_sub_one {α : Type} (v : List α) :
    vecAt v ((v.length : Int) - 1) = v.getLast? := by
  cases v using List.reverseRecOn with
  | nil => simp [vecAt]
  | append_singleton l a =>
    have h : (((l ++ [a]).length : Int) - 1) = (l.length : Int) := by simp
    rw [h, vecAt_natCast]
    simp

theorem dlr_loggedLabels_spec {F : Type} (labels : List String) (output_size : Int) :
    ∀ (top_results : List (F × Int)) (logged : List String),
      dlr.loggedLabels labels output_size top_results = some logged →
      logged.map some =
        top_results.map (fun result => vecAt labels (result.2 + dlr.outputoffset output_size))
  | [], logged, h => by
    simp [dlr.loggedLabels] at h
    subst h
    rfl
  | result :: rest, logged, h => by
    simp only [dlr.loggedLabels] at h
    split at h
    · exact absurd h (by simp)
    · rename_i l hl
      split at h
      · exact absurd h (by simp)
      · rename_i ls hls
        simp only [Option.some.injEq] at h
        subst h
        simp [dlr_loggedLabels_spec labels output_size rest ls hls, ← hl, dlr.labelIndex]

theorem tflite_loggedLabels_spec {F : Type} (labels : List String) (output_size : Int) :
    ∀ (top_results : List (F × Int)) (logged : List String),
      tflite.loggedLabels labels output_size top_results = some logged →
      logged.map some =
        top_results.map
          (fun result => vecAt labels (result.2 + tflite.outputoffset output_size))
  | [], logged, h => by
    simp [tflite.loggedLabels] at h
    subst h
    rfl
  | result :: rest, logged, h => by
    simp only [tflite.loggedLabels] at h
    split at h
    · exact absurd h (by simp)
    · rename_i l hl
      split at h
      · exact absurd h (by simp)
      · rename_i ls hls
        simp only [Option.some.injEq] at h
        subst h
        simp [tflite_loggedLabels_spec labels output_size rest ls hls, ← hl, tflite.labelIndex]

/-! ## Classification: the label offset -/

theorem vecAt_of_bounds {α : Type} (v : List α) (i : Int) (h0 : 0 ≤ i)
    (h1 : i < (v.length : Int)) : ∃ a, vecAt v i = some a := by
  have hlt : i.toNat < v.length := by omega
  refine ⟨v.get ⟨i.toNat, hlt⟩, ?_⟩
  unfold vecAt
  rw [if_neg (by omega)]
  exact List.get?_eq_get hlt

theorem dlr_loggedLabels_defined {F : Type} (labels : List String) (output_size : Int) :
    ∀ (top_results : List (F × Int)),
      (∀ result ∈ top_results, 0 ≤ result.2 + dlr.outputoffset output_size
        ∧ result.2 + dlr.outputoffset output_size < (labels.length : Int)) →
      ∃ logged, dlr.loggedLabels labels output_size top_results = some logged
  | [], _ => ⟨[], rfl⟩
  | first :: rest, h => by
    obtain ⟨h0, h1⟩ := h first (List.mem_cons_self _ _)
    obtain ⟨l, hl⟩ := vecAt_of_bounds labels _ h0 h1
    obtain ⟨ls, hls⟩ := dlr_loggedLabels_defined labels output_size rest
      (fun result hr => h result (List.mem_cons_of_mem _ hr))
    refine ⟨l :: ls, ?_⟩
    rw [dlr.loggedLabels, dlr.labelIndex, hl, hls]

theorem tflite_loggedLabels_defined {F : Type} (labels : List String) (output_size : Int) :
    ∀ (top_results : List (F × Int)),
      (∀ result ∈ top_results, 0 ≤ result.2 + tflite.outputoffset output_size
        ∧ result.2 + tflite.outputoffset output_size < (labels.length : Int)) →
      ∃ logged, tflite.loggedLabels labels output_size top_results = some logged
  | [], _ => ⟨[], rfl⟩
  | first :: rest, h => by
    obtain ⟨h0, h1⟩ := h first (List.mem_cons_self _ _)
    obtain ⟨l, hl⟩ := vecAt_of_bounds labels _ h0 h1
    obtain ⟨ls, hls⟩ := tflite_loggedLabels_defined labels output_size rest
      (fun result hr => h result (List.mem_cons_of_mem _ hr))
    refine ⟨l :: ls, ?_⟩
    rw [tflite.loggedLabels, tflite.labelIndex, hl, hls]

/-- C1. In both classification paths the top results are those that top-N selection
returned, and the label read for a top result with class index `k` is
`labels[k + outputoffset L]`, where the offset depends on the length `L` of the score
vector alone (the size of output 0 for dlr, the last entry of `dims` for tflite): for
`L = 1001` the label is `labels[k]`, for `L = 1000` it is `labels[k + 1]`.  Whenever
these reads are inside the label table the decode completes, with one label for every
top result. -/
theorem label_offset_rule {F D : Type} (log_error_formats : Bool)
    (getTopN : List F → Int → Int → F → Bool → List (F × Int))
    (get_top_n_float : (Int → F) → Int → Int → F → Bool → List (F × Int))
    (get_top_n_uint8 : (Int → Nat) → Int → Int → F → Bool → List (F × Int))
    (overlayTopNClasses : D → List (F × Int) → List String → Int → Int → Int → D)
    (threshold : F) (img : Mat D) (number_of_results : Int) (labels : List String)
    (outputs0 : List F) (rest : List (List F)) (output0 : tflite.TfLiteTensor F) (L : Int)
    (top_results : List (F × Int))
    (hL : output0.dims.getLast? = some L)
    (htop : (output0.type = tflite.TfLiteType.kTfLiteFloat32
          ∧ top_results = get_top_n_float output0.f L number_of_results threshold true)
        ∨ (output0.type = tflite.TfLiteType.kTfLiteUInt8
          ∧ top_results = get_top_n_uint8 output0.uint8 L number_of_results threshold false))
    (hd : ∀ result ∈ getTopN outputs0 1000 number_of_results threshold true,
      0 ≤ result.2 + dlr.outputoffset (toInt32 outputs0.length)
        ∧ result.2 + dlr.outputoffset (toInt32 outputs0.length) < (labels.length : Int))
    (ht : ∀ result ∈ top_results,
      0 ≤ result.2 + tflite.outputoffset L
        ∧ result.2 + tflite.outputoffset L < (labels.length : Int)) :
    (∃ logged,
      dlr.prepClassificationResult log_error_formats getTopN overlayTopNClasses threshold img
          number_of_results (some labels) "float32" (some (outputs0 :: rest))
        = some ⟨Status.RETURN_SUCCESS,
            getTopN outputs0 1000 number_of_results threshold true, logged,
            ⟨img.cols, img.rows,
              overlayTopNClasses img.data
                (getTopN outputs0 1000 number_of_results threshold true) labels
                img.cols img.rows number_of_results⟩⟩
      ∧ logged.map some = (getTopN outputs0 1000 number_of_results threshold true).map
          (fun result =>
            vecAt labels (result.2 + dlr.outputoffset (toInt32 outputs0.length)))
      ∧ (outputs0.length = 1001 →
          logged.map some = (getTopN outputs0 1000 number_of_results threshold true).map
            (fun result => vecAt labels result.2))
      ∧ (outputs0.length = 1000 →
          logged.map some = (getTopN outputs0 1000 number_of_results threshold true).map
            (fun result => vecAt labels (result.2 + 1))))
    ∧ (∃ logged,
      tflite.classification get_top_n_float get_top_n_uint8 overlayTopNClasses threshold img
          number_of_results (some labels) output0
        = some (tflite.Outcome.returned ⟨top_results, logged,
            ⟨img.cols, img.rows,
              overlayTopNClasses img.data top_results labels img.cols img.rows 5⟩⟩)
      ∧ logged.map some
          = top_results.map (fun result => vecAt labels (result.2 + tflite.outputoffset L))
      ∧ (L = 1001 → logged.map some = top_results.map (fun result => vecAt labels result.2))
      ∧ (L = 1000 →
          logged.map some = top_results.map (fun result => vecAt labels (result.2 + 1))))
    ∧ (∀ size, dlr.outputoffset size = tflite.outputoffset size) := by
  refine ⟨?_, ?_, fun size => rfl⟩
  · obtain ⟨logged, hlog⟩ := dlr_loggedLabels_defined labels _ _ hd
    have hspec := dlr_loggedLabels_spec labels _ _ logged hlog
    refine ⟨logged, ?_, hspec, ?_, ?_⟩
    · simp only [dlr.prepClassificationResult, if_true, hlog]
    · intro h
      rw [hspec, h]
      simp [dlr.outputoffset, toInt32]
    · intro h
      rw [hspec, h]
      simp [dlr.outputoffset, toInt32]
  · obtain ⟨logged, hlog⟩ := tflite_loggedLabels_defined labels _ _ ht
    have hspec := tflite_loggedLabels_spec labels _ _ logged hlog
    refine ⟨logged, ?_, hspec, ?_, ?_⟩
    · rcases htop with ⟨htype, rfl⟩ | ⟨htype, rfl⟩
      · simp only [tflite.classification, vecAt_length_sub_one, hL, htype, hlog]
      · simp only [tflite.classification, vecAt_length_sub_one, hL, htype, hlog]
    · intro h
      rw [hspec, h]
      simp [tflite.outputoffset]
    · intro h
      rw [hspec, h]
      simp [tflite.outputoffset]

theorem label_offset_rule_witness :
    (∃ logged,
      dlr.prepClassificationResult true
          (fun _ _ _ _ _ => [((9 : Int), (1 : Int)), (5, 0)])
          (fun (d : Nat) _ _ _ _ _ => d) 0 ⟨4, 4, 0⟩ 2 (some ["background", "dog", "cat"])
          "float32" (some [[5, 9]])
        = some ⟨Status.RETURN_SUCCESS, [(9, 1), (5, 0)], logged, ⟨4, 4, 0⟩⟩
      ∧ logged.map some = [((9 : Int), (1 : Int)), (5, 0)].map (fun result =>
          vecAt ["background", "dog", "cat"]
            (result.2 + dlr.outputoffset (toInt32 ([(5 : Int), 9].length)))))
    ∧ (∃ logged,
      tflite.classification (fun _ _ _ _ _ => [((9 : Int), (1 : Int)), (5, 0)])
          (fun _ _ _ _ _ => []) (fun (d : Nat) _ _ _ _ _ => d) 0 ⟨4, 4, 0⟩ 2
          (some ["background", "dog", "cat"])
          ⟨tflite.TfLiteType.kTfLiteFloat32, [1, 1001], fun _ => 0, fun _ => 0, fun _ => 0,
            fun _ => 0⟩
        = some (tflite.Outcome.returned ⟨[(9, 1), (5, 0)], logged, ⟨4, 4, 0⟩⟩)
      ∧ logged.map some = [((9 : Int), (1 : Int)), (5, 0)].map (fun result =>
          vecAt ["background", "dog", "cat"] result.2)) :=
  have h := @label_offset_rule Int Nat true
    (fun _ _ _ _ _ => [(9, 1), (5, 0)]) (fun _ _ _ _ _ => [(9, 1), (5, 0)])
    (fun _ _ _ _ _ => [])
    (fun d _ _ _ _ _ => d) 0 ⟨4, 4, 0⟩ 2 ["background", "dog", "cat"]
    [5, 9] []
    ⟨tflite.TfLiteType.kTfLiteFloat32, [1, 1001], fun _ => 0, fun _ => 0, fun _ => 0, fun _ => 0⟩
    1001 [(9, 1), (5, 0)] rfl (Or.inl ⟨rfl, rfl⟩)
    (by
      intro result hr
      simp only [List.mem_cons, List.mem_singleton, List.not_mem_nil, or_false] at hr
      rcases hr with rfl | rfl <;> decide)
    (by
      intro result hr
      simp only [List.mem_cons, List.mem_singleton, List.not_mem_nil, or_false] at hr
      rcases hr with rfl | rfl <;> decide)
  ⟨h.1.imp (fun _ hl => ⟨hl.1, hl.2.1⟩), h.2.1.imp (fun _ hl => ⟨hl.1, hl.2.2.1 rfl⟩)⟩

/-! ## Detection from a fused tensor (tflite) -/

theorem detectionFold_eq {F : Type} (gt : F → F → Bool) (div : F → F → F)
    (out_tensor : Int → F) (res_dim : Int) (inDataHeight threshold : F) :
    ∀ (rows : List Nat) (st : tflite.Detections F),
      rows.foldl (fun st (i : Nat) =>
          tflite.detectionStep gt div out_tensor res_dim inDataHeight threshold st (i : Int)) st
        = ⟨st.num_detections
              + ((rows.filter
                  (fun i => gt (tflite.rowScore out_tensor res_dim i) threshold)).length : Int),
            st.detectection_scores
              ++ (rows.filter (fun i => gt (tflite.rowScore out_tensor res_dim i) threshold)).map
                  (tflite.rowScore out_tensor res_dim),
            st.detectection_classes
              ++ (rows.filter (fun i => gt (tflite.rowScore out_tensor res_dim i) threshold)).map
                  (tflite.rowClass out_tensor res_dim),
            st.detectection_location
              ++ ((rows.filter
                  (fun i => gt (tflite.rowScore out_tensor res_dim i) threshold)).map
                  (tflite.rowLocation div out_tensor res_dim inDataHeight)).flatten⟩
  | [], st => by simp
  | i :: rows, st => by
    rw [List.foldl_cons, detectionFold_eq gt div out_tensor res_dim inDataHeight threshold rows]
    by_cases h : gt (tflite.rowScore out_tensor res_dim i) threshold = true
    · have h2 : gt (out_tensor ((i : Int) * res_dim + res_dim - 2)) threshold = true := h
      simp [tflite.detectionStep, h2, List.filter_cons, h, tflite.rowScore, tflite.rowClass,
        tflite.rowLocation, add_assoc, add_comm (1 : Int)]
    · have h2 : ¬ gt (out_tensor ((i : Int) * res_dim + res_dim - 2)) threshold = true := h
      simp [tflite.detectionStep, h2, List.filter_cons, h]

theorem detectionLoop_eq {F : Type} (gt : F → F → Bool) (div : F → F → F)
    (out_tensor : Int → F) (res_dim num_res : Int) (inDataHeight threshold : F) :
    tflite.detectionLoop gt div out_tensor res_dim num_res inDataHeight threshold
      = ⟨((tflite.keptRows gt out_tensor res_dim num_res threshold).length : Int),
          (tflite.keptRows gt out_tensor res_dim num_res threshold).map
            (tflite.rowScore out_tensor res_dim),
          (tflite.keptRows gt out_tensor res_dim num_res threshold).map
            (tflite.rowClass out_tensor res_dim),
          ((tflite.keptRows gt out_tensor res_dim num_res threshold).map
            (tflite.rowLocation div out_tensor res_dim inDataHeight)).flatten⟩ := by
  unfold tflite.detectionLoop
  rw [detectionFold_eq]
  simp [tflite.keptRows]

theorem fusedDetection_eq {F : Type} (gt : F → F → Bool) (div : F → F → F)
    (output0 : tflite.TfLiteTensor F) (inDataHeight threshold : F)
    (outer : List Int) (num_res res_dim : Int)
    (hdims : output0.dims = outer ++ [num_res, res_dim]) :
    tflite.fusedDetection gt div output0 inDataHeight threshold
      = some (tflite.detectionLoop gt div output0.f res_dim num_res inDataHeight threshold) := by
  have h1 : vecAt output0.dims ((output0.dims.length : Int) - 1) = some res_dim := by
    rw [vecAt_length_sub_one, hdims]
    simp
  have h2 : vecAt output0.dims ((output0.dims.length : Int) - 2) = some num_res := by
    have h : ((output0.dims.length : Int) - 2) = (outer.length : Int) := by
      rw [hdims]
      simp
    rw [h, vecAt_natCast, hdims, List.get?_eq_getElem?, List.getElem?_append_right (le_refl _)]
    simp
  simp [tflite.fusedDetection, h1, h2]

theorem fusedDetection_some {F : Type} (gt : F → F → Bool) (div : F → F → F)
    (output0 : tflite.TfLiteTensor F) (inDataHeight threshold : F) (st : tflite.Detections F)
    (h : tflite.fusedDetection gt div output0 inDataHeight threshold = some st) :
    ∃ res_dim num_res,
      st = tflite.detectionLoop gt div output0.f res_dim num_res inDataHeight threshold := by
  unfold tflite.fusedDetection at h
  simp only at h
  split at h
  · rename_i res_dim num_res _ _
    exact ⟨res_dim, num_res, (Option.some.inj h).symm⟩
  · exact absurd h (by simp)

theorem exampleRow_decoded :
    tflite.fusedDetection tflite.gtQ tflite.divQ tflite.exampleRow 1 (1 / 2)
      = some ⟨1, [3], [4 / 5], [20, 50, 80, 3]⟩ := by
  simp [tflite.fusedDetection, tflite.exampleRow, vecAt, tflite.detectionLoop,
    tflite.detectionStep, tflite.bufferOf, tflite.gtQ, tflite.divQ, List.range,
    List.range.loop]
  norm_num

/-- C2. Every score the fused-tensor path of tflite pushes to `detectection_scores` is
greater than the threshold, for every tensor and every threshold; a score equal to the
threshold (for which `>` is false) is never among them. -/
theorem emitted_scores_above_threshold {F : Type} (gt : F → F → Bool) (div : F → F → F)
    (output0 : tflite.TfLiteTensor F) (inDataHeight threshold : F) (st : tflite.Detections F)
    (h : tflite.fusedDetection gt div output0 inDataHeight threshold = some st) :
    (∀ s ∈ st.detectection_scores, gt s threshold = true)
    ∧ (gt threshold threshold = false → threshold ∉ st.detectection_scores) := by
  obtain ⟨res_dim, num_res, hst⟩ := fusedDetection_some gt div output0 inDataHeight threshold st h
  have hall : ∀ s ∈ st.detectection_scores, gt s threshold = true := by
    intro s hs
    rw [hst, detectionLoop_eq] at hs
    simp only [List.mem_map, tflite.keptRows, List.mem_filter] at hs
    obtain ⟨i, ⟨_, hi⟩, rfl⟩ := hs
    exact hi
  refine ⟨hall, ?_⟩
  intro hirr hmem
  rw [hall threshold hmem] at hirr
  exact Bool.noConfusion hirr

theorem emitted_scores_above_threshold_witness :
    tflite.gtQ 3 (1 / 2) = true ∧ (1 / 2 : ℚ) ∉ [(3 : ℚ)] :=
  have h := emitted_scores_above_threshold tflite.gtQ tflite.divQ tflite.exampleRow 1 (1 / 2)
    ⟨1, [3], [4 / 5], [20, 50, 80, 3]⟩ exampleRow_decoded
  ⟨h.1 3 (List.mem_singleton.mpr rfl), h.2 (by simp [tflite.gtQ])⟩

/-- C3. The detections the fused-tensor path of tflite emits are the rows of the tensor
with score greater than the threshold, in the order of the tensor: the score, class and
coordinate vectors are those of the kept rows, and the kept rows are a subsequence of
`0, ..., num_res - 1` in increasing order that contains every row passing the test. -/
theorem emitted_rows_are_filter {F : Type} (gt : F → F → Bool) (div : F → F → F)
    (output0 : tflite.TfLiteTensor F) (inDataHeight threshold : F)
    (outer : List Int) (num_res res_dim : Int)
    (hdims : output0.dims = outer ++ [num_res, res_dim]) :
    tflite.fusedDetection gt div output0 inDataHeight threshold
      = some ⟨((tflite.keptRows gt output0.f res_dim num_res threshold).length : Int),
          (tflite.keptRows gt output0.f res_dim num_res threshold).map
            (tflite.rowScore output0.f res_dim),
          (tflite.keptRows gt output0.f res_dim num_res threshold).map
            (tflite.rowClass output0.f res_dim),
          ((tflite.keptRows gt output0.f res_dim num_res threshold).map
            (tflite.rowLocation div output0.f res_dim inDataHeight)).flatten⟩
    ∧ (tflite.keptRows gt output0.f res_dim num_res threshold).Sublist
        (List.range num_res.toNat)
    ∧ (tflite.keptRows gt output0.f res_dim num_res threshold).Pairwise (fun i j => i < j)
    ∧ (∀ i : Nat, i ∈ tflite.keptRows gt output0.f res_dim num_res threshold ↔
        ((i : Int) < num_res ∧ gt (tflite.rowScore output0.f res_dim i) threshold = true)) := by
  refine ⟨?_, List.filter_sublist _, ?_, ?_⟩
  · rw [fusedDetection_eq gt div output0 inDataHeight threshold outer num_res res_dim hdims,
      detectionLoop_eq]
  · exact List.Pairwise.sublist (List.filter_sublist _) (List.pairwise_lt_range _)
  · intro i
    simp only [tflite.keptRows, List.mem_filter, List.mem_range]
    constructor
    · rintro ⟨h1, h2⟩
      exact ⟨by omega, h2⟩
    · rintro ⟨h1, h2⟩
      exact ⟨by omega, h2⟩

theorem emitted_rows_are_filter_witness :
    tflite.exampleRow.dims = [1] ++ [1, 6]
    ∧ tflite.fusedDetection tflite.gtQ tflite.divQ tflite.exampleRow 1 (1 / 2)
      = some ⟨((tflite.keptRows tflite.gtQ tflite.exampleRow.f 6 1 (1 / 2)).length : Int),
          (tflite.keptRows tflite.gtQ tflite.exampleRow.f 6 1 (1 / 2)).map
            (tflite.rowScore tflite.exampleRow.f 6),
          (tflite.keptRows tflite.gtQ tflite.exampleRow.f 6 1 (1 / 2)).map
            (tflite.rowClass tflite.exampleRow.f 6),
          ((tflite.keptRows tflite.gtQ tflite.exampleRow.f 6 1 (1 / 2)).map
            (tflite.rowLocation tflite.divQ tflite.exampleRow.f 6 1)).flatten⟩ :=
  ⟨rfl, (emitted_rows_are_filter tflite.gtQ tflite.divQ tflite.exampleRow 1 (1 / 2)
    [1] 1 6 rfl).1⟩

/-- C4, as the code has it.  The fused-tensor path of tflite does not read the format
descriptor: it takes the score from column `res_dim - 2`, the class from column
`res_dim - 1` and the coordinates from columns 1 to 4.  For the row
`[10, 20, 50, 80, 3, 0.8]`, threshold 0.5 and reference dimension 1 it emits one
detection, with score 3, class 0.8 and coordinates 20, 50, 80, 3. -/
theorem example_row_decoding :
    tflite.fusedDetection tflite.gtQ tflite.divQ tflite.exampleRow 1 (1 / 2)
      = some ⟨1, [3], [4 / 5], [20, 50, 80, 3]⟩ := by
  simp [tflite.fusedDetection, tflite.exampleRow, vecAt, tflite.detectionLoop,
    tflite.detectionStep, tflite.bufferOf, tflite.gtQ, tflite.divQ, List.range,
    List.range.loop]
  norm_num

/-- C4 as stated fails: for the row `[10, 20, 50, 80, 3, 0.8]` the one detection emitted
has neither score 0.8 nor class 3, and no coordinate 10. -/
theorem example_row_not_as_stated :
    ∃ st, tflite.fusedDetection tflite.gtQ tflite.divQ tflite.exampleRow 1 (1 / 2) = some st
      ∧ st.num_detections = 1
      ∧ st.detectection_scores ≠ [4 / 5]
      ∧ st.detectection_classes ≠ [3]
      ∧ (10 : ℚ) ∉ st.detectection_location := by
  refine ⟨⟨1, [3], [4 / 5], [20, 50, 80, 3]⟩, ?_, rfl, ?_, ?_, ?_⟩
  · simp [tflite.fusedDetection, tflite.exampleRow, vecAt, tflite.detectionLoop,
      tflite.detectionStep, tflite.bufferOf, tflite.gtQ, tflite.divQ, List.range,
      List.range.loop]
    norm_num
  · norm_num
  · norm_num
  · norm_num

/-! ## Detection (dlr): the shape of a tensor and the table -/

theorem eraseLoop_eq (temp : List Int) (it : Nat) :
    dlr.eraseLoop temp it = temp.take it ++ (temp.drop it).filter (fun d => decide (d ≠ 1)) := by
  induction temp, it using dlr.eraseLoop.induct with
  | case1 temp it h h1 ih =>
    rw [dlr.eraseLoop, dif_pos h, if_pos h1, ih, List.eraseIdx_eq_take_drop_succ]
    have hle : it ≤ temp.length := Nat.le_of_lt h
    have e1 : List.take it (List.take it temp ++ List.drop (it + 1) temp) = List.take it temp := by
      rw [List.take_append_of_le_length (by simp [hle])]
      simp
    have e2 : List.drop it (List.take it temp ++ List.drop (it + 1) temp)
        = List.drop (it + 1) temp := by
      have hl : (List.take it temp).length = it := by simp [hle]
      rw [List.drop_append_of_le_length (by simp [hle])]
      simp [hl]
    rw [e1, e2]
    have e3 : List.drop it temp = temp.get ⟨it, h⟩ :: List.drop (it + 1) temp := by
      simp
    rw [e3, h1]
    simp
  | case2 temp it h h1 ih =>
    rw [dlr.eraseLoop, dif_pos h, if_neg h1, ih]
    have e3 : List.drop it temp = temp.get ⟨it, h⟩ :: List.drop (it + 1) temp := by
      simp
    rw [e3, List.filter_cons_of_pos (by simpa using h1)]
    rw [← List.take_concat_get temp it h]
    simp only [List.concat_eq_append, List.append_assoc, List.singleton_append,
      List.get_eq_getElem]
  | case3 temp it h =>
    rw [dlr.eraseLoop, dif_neg h]
    have hle : temp.length ≤ it := Nat.le_of_not_lt h
    simp [List.take_of_length_le hle, List.drop_of_length_le hle]

theorem eraseLoop_zero (tensor_shape : List Int) :
    dlr.eraseLoop tensor_shape 0 = tensor_shape.filter (fun d => decide (d ≠ 1)) := by
  rw [eraseLoop_eq]
  simp

theorem num_val_tensor_eq (tensor_shape : List Int) :
    dlr.num_val_tensor tensor_shape
      = if (tensor_shape.filter (fun d => decide (d ≠ 1))).length = 1 then some 1
        else (vecAt (tensor_shape.filter (fun d => decide (d ≠ 1)))
            (if (tensor_shape.filter (fun d => decide (d ≠ 1))).length = 0
              then 18446744073709551615
              else ((tensor_shape.filter (fun d => decide (d ≠ 1))).length : Int) - 1)).map
          toInt32 := by
  simp only [dlr.num_val_tensor, eraseLoop_zero]

theorem toSizeT_of_range (x : Int) (h0 : 0 ≤ x) (h1 : x < 18446744073709551616) :
    toSizeT x = x := by
  unfold toSizeT
  omega

/-- C5, as the code has it.  In the detection path of dlr the erase loop leaves, for every
shape, the dimensions different from 1 in their order; `num_val_tensor` is 1 when one
dimension is left, and when two or more are left it is the last dimension left as the
32 bit `int` it is stored into: the dimension itself whenever that fits an `int`. -/
theorem shape_reconciliation (tensor_shape : List Int) :
    dlr.eraseLoop tensor_shape 0 = tensor_shape.filter (fun d => decide (d ≠ 1))
    ∧ ((tensor_shape.filter (fun d => decide (d ≠ 1))).length = 1 →
        dlr.num_val_tensor tensor_shape = some 1)
    ∧ (2 ≤ (tensor_shape.filter (fun d => decide (d ≠ 1))).length →
        dlr.num_val_tensor tensor_shape
          = (tensor_shape.filter (fun d => decide (d ≠ 1))).getLast?.map toInt32)
    ∧ (∀ last, 2 ≤ (tensor_shape.filter (fun d => decide (d ≠ 1))).length →
        (tensor_shape.filter (fun d => decide (d ≠ 1))).getLast? = some last →
        -2147483648 ≤ last → last < 2147483648 →
        dlr.num_val_tensor tensor_shape = some last) := by
  have h2 : 2 ≤ (tensor_shape.filter (fun d => decide (d ≠ 1))).length →
      dlr.num_val_tensor tensor_shape
        = (tensor_shape.filter (fun d => decide (d ≠ 1))).getLast?.map toInt32 := by
    intro h
    rw [num_val_tensor_eq, if_neg (by omega), if_neg (by omega), vecAt_length_sub_one]
  refine ⟨eraseLoop_zero tensor_shape, ?_, h2, ?_⟩
  · intro h
    rw [num_val_tensor_eq, if_pos h]
  · intro last hlen hlast hlo hhi
    rw [h2 hlen, hlast, Option.map_some', toInt32_of_range last hlo hhi]

theorem shape_reconciliation_witness :
    dlr.num_val_tensor [1, 7] = some 1 ∧ dlr.num_val_tensor [1, 5, 1, 4] = some 4 :=
  ⟨(shape_reconciliation [1, 7]).2.1 (by decide),
   (shape_reconciliation [1, 5, 1, 4]).2.2.2 4 (by decide) (by decide) (by decide) (by decide)⟩

/-- C5 as stated fails: for the shape `[3, 2147483648]` no dimension is erased and two
are left, but `num_val_tensor` is not the last of them: stored into an `int` it is
`-2147483648`. -/
theorem num_val_tensor_narrowed :
    dlr.eraseLoop [3, 2147483648] 0 = [3, 2147483648]
    ∧ dlr.num_val_tensor [3, 2147483648] = some (-2147483648)
    ∧ dlr.num_val_tensor [3, 2147483648] ≠ some 2147483648 := by
  have hval : dlr.num_val_tensor [3, 2147483648] = some (-2147483648) := by
    rw [num_val_tensor_eq]
    decide
  refine ⟨?_, hval, ?_⟩
  · rw [eraseLoop_zero]
    decide
  · rw [hval]
    decide

theorem allSome_map_of_forall {α β : Type} (f : α → Option β) (g : α → β) :
    ∀ (l : List α), (∀ x ∈ l, f x = some (g x)) → allSome (l.map f) = some (l.map g)
  | [], _ => rfl
  | a :: l, h => by
    have ha : f a = some (g a) := h a (List.mem_cons_self a l)
    have hl : allSome (l.map f) = some (l.map g) :=
      allSome_map_of_forall f g l (fun x hx => h x (List.mem_cons_of_mem a hx))
    simp [allSome, ha, hl]

theorem toInt32_range (x : Int) : -2147483648 ≤ toInt32 x ∧ toInt32 x < 2147483648 := by
  unfold toInt32
  omega

theorem num_val_tensor_range (tensor_shape : List Int) (num_val : Int)
    (h : dlr.num_val_tensor tensor_shape = some num_val) :
    -2147483648 ≤ num_val ∧ num_val < 2147483648 := by
  rw [num_val_tensor_eq] at h
  split at h
  · have h1 : (1 : Int) = num_val := Option.some.inj h
    omega
  · rw [Option.map_eq_some'] at h
    obtain ⟨a, _, ha⟩ := h
    rw [← ha]
    exact toInt32_range a

theorem tensorRows_block {F : Type} (zero : F) (nboxes : Nat) (tensor : dlr.OutputTensor F)
    (num_val : Int) (hval : dlr.num_val_tensor tensor.shape = some num_val)
    (h0 : 0 ≤ num_val) (hfit : (nboxes : Int) * num_val < 9223372036854775808) :
    dlr.tensorRows
        ((List.range ((nboxes : Int) * num_val).toNat).map
          (fun k => if k < tensor.size then tensor.floats k else zero))
        nboxes num_val
      = some (dlr.tensorBlock zero nboxes tensor) := by
  obtain ⟨_, hhi⟩ := num_val_tensor_range tensor.shape num_val hval
  obtain ⟨V, rfl⟩ := Int.eq_ofNat_of_zero_le h0
  have hsz : toSizeT (V : Int) = (V : Int) := toSizeT_of_range _ (by omega) (by omega)
  have hcount : ((nboxes : Int) * (V : Int)).toNat = nboxes * V := by
    rw [← Int.natCast_mul]
    exact Int.toNat_natCast _
  have hfitN : nboxes * V < 9223372036854775808 := by
    have : ((nboxes * V : Nat) : Int) < 9223372036854775808 := by
      rw [Int.natCast_mul]
      exact hfit
    omega
  unfold dlr.tensorRows dlr.tensorBlock
  rw [hval, hsz, hcount]
  simp only [Option.getD_some, Int.toNat_natCast]
  apply allSome_map_of_forall
  intro j hj
  apply allSome_map_of_forall
  intro k hk
  rw [List.mem_range] at hj hk
  have hjk : j * V + k < nboxes * V := by
    have h1 : j * V + V ≤ nboxes * V := by
      have := Nat.mul_le_mul_right V (Nat.succ_le_of_lt hj)
      rw [Nat.succ_mul] at this
      exact this
    omega
  have hidx : toSizeT ((j : Int) * (V : Int) + (k : Int)) = ((j * V + k : Nat) : Int) := by
    have e : (j : Int) * (V : Int) + (k : Int) = ((j * V + k : Nat) : Int) := by
      push_cast
      rfl
    rw [e]
    exact toSizeT_of_range _ (by omega) (by omega)
  rw [hidx, vecAt_natCast, List.get?_eq_getElem?]
  simp [hjk]

theorem tableLoop_built {F : Type} (zero : F) (ofInt64 : Int → F) (nboxes : Nat) :
    ∀ (outputs : List (dlr.OutputTensor F)) (f_tensor_unformatted : List (List F)),
      (∀ tensor ∈ outputs, dlr.Copyable nboxes tensor) →
      dlr.tableLoop zero ofInt64 nboxes outputs f_tensor_unformatted
        = some (dlr.TableOutcome.table
            (f_tensor_unformatted ++ (outputs.map (dlr.tensorBlock zero nboxes)).flatten))
  | [], acc, _ => by simp [dlr.tableLoop]
  | tensor :: rest, acc, h => by
    obtain ⟨htype, hok, num_val, hval, h0, hsize, hfit⟩ := h tensor (List.mem_cons_self _ _)
    have hrest : ∀ t ∈ rest, dlr.Copyable nboxes t :=
      fun t ht => h t (List.mem_cons_of_mem _ ht)
    have hfill : dlr.filledOutput zero ((nboxes : Int) * num_val) tensor.size tensor.floats
        tensor.get_output_ok
          = some (some ((List.range ((nboxes : Int) * num_val).toNat).map
              (fun k => if k < tensor.size then tensor.floats k else zero))) := by
      have hnn : 0 ≤ (nboxes : Int) * num_val := Int.mul_nonneg (Int.ofNat_nonneg _) h0
      have hle : ¬ ((nboxes : Int) * num_val).toNat < tensor.size := by
        omega
      unfold dlr.filledOutput
      rw [if_neg (by omega), hok, if_neg (by simp), if_neg hle]
    rw [dlr.tableLoop]
    simp only [hval, htype, if_true, hfill]
    rw [tensorRows_block zero nboxes tensor num_val hval h0 hfit]
    simp only
    rw [tableLoop_built zero ofInt64 nboxes rest _ hrest]
    simp

theorem length_tensorBlock {F : Type} (zero : F) (nboxes : Nat) (tensor : dlr.OutputTensor F) :
    (dlr.tensorBlock zero nboxes tensor).length = nboxes := by
  simp [dlr.tensorBlock]

theorem length_flatten_blocks {F : Type} (zero : F) (nboxes : Nat) :
    ∀ (outputs : List (dlr.OutputTensor F)),
      ((outputs.map (dlr.tensorBlock zero nboxes)).flatten).length = outputs.length * nboxes
  | [] => by simp
  | tensor :: rest => by
    simp only [List.map_cons, List.flatten_cons, List.length_append, length_tensorBlock,
      List.length_cons, length_flatten_blocks zero nboxes rest]
    rw [Nat.succ_mul]
    omega

theorem detectionTable_built {F : Type} (zero : F) (ofInt64 : Int → F)
    (output0 : dlr.OutputTensor F) (rest : List (dlr.OutputTensor F))
    (h : ∀ tensor ∈ output0 :: rest, dlr.Copyable output0.size tensor) :
    dlr.detectionTable zero ofInt64 (output0 :: rest)
      = some (output0.size, dlr.TableOutcome.table
          (((output0 :: rest).map (dlr.tensorBlock zero output0.size)).flatten)) := by
  unfold dlr.detectionTable
  simp only
  rw [tableLoop_built zero ofInt64 output0.size (output0 :: rest) [] h]
  simp

theorem tableLoop_fail {F : Type} (zero : F) (ofInt64 : Int → F) (nboxes : Nat) :
    ∀ (outputs : List (dlr.OutputTensor F)) (f_tensor_unformatted : List (List F)),
      dlr.tableLoop zero ofInt64 nboxes outputs f_tensor_unformatted
        = some dlr.TableOutcome.RETURN_FAIL →
      ∃ tensor ∈ outputs,
        (tensor.tensor_type ≠ "float32" ∧ tensor.type_is_int64_literal = false)
          ∨ tensor.get_output_ok = false
  | [], acc, h => by simp [dlr.tableLoop] at h
  | tensor :: rest, acc, h => by
    rw [dlr.tableLoop] at h
    split at h
    · exact absurd h (by simp)
    · rename_i num_val hval
      simp only at h
      split at h
      · exact absurd h (by simp)
      · rename_i hconv
        refine ⟨tensor, List.mem_cons_self _ _, ?_⟩
        by_cases hok : tensor.get_output_ok = false
        · exact Or.inr hok
        · left
          have hok2 : tensor.get_output_ok = true := by simpa using hok
          by_cases htype : tensor.tensor_type = "float32"
          · rw [if_pos htype] at hconv
            unfold dlr.filledOutput at hconv
            rw [hok2] at hconv
            split at hconv
            · exact absurd hconv (by simp)
            · simp only [Bool.true_eq_false, if_false] at hconv
              split at hconv
              · exact absurd hconv (by simp)
              · exact absurd hconv (by simp)
          · refine ⟨htype, ?_⟩
            rw [if_neg htype] at hconv
            by_cases hlit : tensor.type_is_int64_literal = true
            · rw [if_pos hlit] at hconv
              unfold dlr.filledOutput at hconv
              rw [hok2] at hconv
              split at hconv
              · exact absurd hconv (by simp)
              · simp only [Bool.true_eq_false, if_false] at hconv
                split at hconv
                · exact absurd hconv (by simp)
                · exact absurd hconv (by simp)
            · simpa using hlit
      · rename_i f_tensor hconv
        split at h
        · exact absurd h (by simp)
        · obtain ⟨t, ht, hcase⟩ := tableLoop_fail zero ofInt64 nboxes rest _ h
          exact ⟨t, List.mem_cons_of_mem _ ht, hcase⟩

theorem copyable_floatTensor_vector (nboxes : Nat) (a : Int) (contents : List ℚ)
    (ha : a ≠ 1) (hlen : contents.length ≤ nboxes) (hfit : nboxes < 9223372036854775808) :
    dlr.Copyable nboxes (dlr.floatTensor [a] contents) := by
  refine ⟨rfl, rfl, 1, ?_, by decide, ?_, ?_⟩
  · rw [num_val_tensor_eq]
    simp [dlr.floatTensor, ha]
  · simp only [dlr.floatTensor, mul_one]
    exact_mod_cast hlen
  · simp only [mul_one]
    exact_mod_cast hfit

theorem twoVectors_table :
    dlr.detectionTable (0 : ℚ) (fun n => (n : ℚ))
        [dlr.floatTensor [2] [11, 12], dlr.floatTensor [2] [21, 22]]
      = some (2, dlr.TableOutcome.table [[11], [12], [21], [22]]) := by
  rw [detectionTable_built]
  · simp [dlr.tensorBlock, num_val_tensor_eq, dlr.floatTensor, List.range, List.range.loop]
  · intro tensor ht
    simp only [List.mem_cons, List.mem_singleton, List.not_mem_nil, or_false] at ht
    rcases ht with rfl | rfl
    · exact copyable_floatTensor_vector _ 2 _ (by decide) (by simp [dlr.floatTensor])
        (by simp [dlr.floatTensor])
    · exact copyable_floatTensor_vector _ 2 _ (by decide) (by simp [dlr.floatTensor])
        (by simp [dlr.floatTensor])

theorem unequalVectors_table :
    dlr.detectionTable (0 : ℚ) (fun n => (n : ℚ))
        [dlr.floatTensor [3] [11, 12, 13], dlr.floatTensor [2] [21, 22]]
      = some (3, dlr.TableOutcome.table [[11], [12], [13], [21], [22], [0]]) := by
  rw [detectionTable_built]
  · simp [dlr.tensorBlock, num_val_tensor_eq, dlr.floatTensor, List.range, List.range.loop]
  · intro tensor ht
    simp only [List.mem_cons, List.mem_singleton, List.not_mem_nil, or_false] at ht
    rcases ht with rfl | rfl
    · exact copyable_floatTensor_vector _ 3 _ (by decide) (by simp [dlr.floatTensor])
        (by simp [dlr.floatTensor])
    · exact copyable_floatTensor_vector _ 2 _ (by decide) (by simp [dlr.floatTensor])
        (by simp [dlr.floatTensor])

/-- C6, as the code has it.  In the detection path of dlr, for `k` `float32` outputs that
the loop can copy, the table handed to `prepDetectionResult` has `k * nboxes` rows,
`nboxes` being the number of elements of output 0: the rows of the outputs follow one
another, `nboxes` rows for each output, and a row of output `i` holds the `v_i` values
of one detection of that output (0 past the end of the output). -/
theorem detection_table_layout {F : Type} (zero : F) (ofInt64 : Int → F)
    (output0 : dlr.OutputTensor F) (rest : List (dlr.OutputTensor F))
    (h : ∀ tensor ∈ output0 :: rest, dlr.Copyable output0.size tensor) :
    dlr.detectionTable zero ofInt64 (output0 :: rest)
      = some (output0.size, dlr.TableOutcome.table
          (((output0 :: rest).map (dlr.tensorBlock zero output0.size)).flatten))
    ∧ (((output0 :: rest).map (dlr.tensorBlock zero output0.size)).flatten).length
        = (output0 :: rest).length * output0.size
    ∧ (∀ tensor ∈ output0 :: rest,
        (dlr.tensorBlock zero output0.size tensor).length = output0.size
        ∧ ∀ row ∈ dlr.tensorBlock zero output0.size tensor,
            row.length = ((dlr.num_val_tensor tensor.shape).getD 0).toNat) := by
  refine ⟨detectionTable_built zero ofInt64 output0 rest h, length_flatten_blocks _ _ _, ?_⟩
  intro tensor _
  refine ⟨length_tensorBlock _ _ _, ?_⟩
  intro row hrow
  simp only [dlr.tensorBlock, List.mem_map, List.mem_range] at hrow
  obtain ⟨j, _, rfl⟩ := hrow
  simp

theorem detection_table_layout_witness :
    dlr.detectionTable (0 : ℚ) (fun n => (n : ℚ))
        [dlr.floatTensor [2] [11, 12], dlr.floatTensor [2] [21, 22]]
      = some ((dlr.floatTensor [2] [11, 12]).size, dlr.TableOutcome.table
          (([dlr.floatTensor [2] [11, 12], dlr.floatTensor [2] [21, 22]].map
            (dlr.tensorBlock 0 (dlr.floatTensor [2] [11, 12]).size)).flatten)) :=
  (detection_table_layout (0 : ℚ) (fun n => (n : ℚ))
    (dlr.floatTensor [2] [11, 12]) [dlr.floatTensor [2] [21, 22]]
    (by
      intro tensor ht
      simp only [List.mem_cons, List.mem_singleton, List.not_mem_nil, or_false] at ht
      rcases ht with rfl | rfl
      · exact copyable_floatTensor_vector _ 2 _ (by decide) (by simp [dlr.floatTensor])
          (by simp [dlr.floatTensor])
      · exact copyable_floatTensor_vector _ 2 _ (by decide) (by simp [dlr.floatTensor])
          (by simp [dlr.floatTensor]))).1

/-- C6 as stated fails: two outputs of shape `[2]`, each holding one value for each of
the same `N = 2` detections, give a table of 4 rows of one value, not 2 rows of 2. -/
theorem detection_table_not_N_rows :
    ∃ table, dlr.detectionTable (0 : ℚ) (fun n => (n : ℚ))
        [dlr.floatTensor [2] [11, 12], dlr.floatTensor [2] [21, 22]]
          = some (2, dlr.TableOutcome.table table)
      ∧ table.length = 4 ∧ table.length ≠ 2 ∧ table ≠ [[11, 21], [12, 22]]
      ∧ ∀ row ∈ table, row.length = 1 :=
  ⟨[[11], [12], [21], [22]], twoVectors_table, rfl, by decide, by simp, by simp⟩

/-- C7, as the code has it.  The detection path of dlr does not compare the row counts
of the outputs.  The loop returns `RETURN_FAIL` only for an output whose type is not
accepted or for which `GetDLROutput` fails; and whenever every output is a `float32`
tensor that can be copied into a buffer sized from output 0, whatever the shapes of the
outputs are, the table is built and handed on. -/
theorem no_row_count_check {F : Type} (zero : F) (ofInt64 : Int → F) :
    (∀ (outputs : List (dlr.OutputTensor F)) (nboxes : Nat),
      dlr.detectionTable zero ofInt64 outputs = some (nboxes, dlr.TableOutcome.RETURN_FAIL) →
      ∃ tensor ∈ outputs,
        (tensor.tensor_type ≠ "float32" ∧ tensor.type_is_int64_literal = false)
          ∨ tensor.get_output_ok = false)
    ∧ (∀ (output0 : dlr.OutputTensor F) (rest : List (dlr.OutputTensor F)),
      (∀ tensor ∈ output0 :: rest, dlr.Copyable output0.size tensor) →
      ∃ table, dlr.detectionTable zero ofInt64 (output0 :: rest)
        = some (output0.size, dlr.TableOutcome.table table)) := by
  constructor
  · intro outputs nboxes h
    unfold dlr.detectionTable at h
    split at h
    · exact absurd h (by simp)
    · rename_i output0 rest
      simp only [Option.map_eq_some', Prod.mk.injEq] at h
      obtain ⟨r, hr, _, rfl⟩ := h
      exact tableLoop_fail zero ofInt64 _ _ _ hr
  · intro output0 rest h
    exact ⟨_, detectionTable_built zero ofInt64 output0 rest h⟩

theorem no_row_count_check_witness :
    (∃ tensor ∈ [(⟨[2], "uint8", false, 2, fun _ => 0, fun _ => 0, true⟩ : dlr.OutputTensor ℚ)],
        (tensor.tensor_type ≠ "float32" ∧ tensor.type_is_int64_literal = false)
          ∨ tensor.get_output_ok = false)
    ∧ ∃ table, dlr.detectionTable (0 : ℚ) (fun n => (n : ℚ))
        [dlr.floatTensor [3] [11, 12, 13], dlr.floatTensor [2] [21, 22]]
          = some ((dlr.floatTensor [3] [11, 12, 13]).size, dlr.TableOutcome.table table) :=
  ⟨(no_row_count_check (0 : ℚ) (fun n => (n : ℚ))).1
      [⟨[2], "uint8", false, 2, fun _ => 0, fun _ => 0, true⟩] 2
      (by simp [dlr.detectionTable, dlr.tableLoop, num_val_tensor_eq]),
   (no_row_count_check (0 : ℚ) (fun n => (n : ℚ))).2
      (dlr.floatTensor [3] [11, 12, 13]) [dlr.floatTensor [2] [21, 22]]
      (by
        intro tensor ht
        simp only [List.mem_cons, List.mem_singleton, List.not_mem_nil, or_false] at ht
        rcases ht with rfl | rfl
        · exact copyable_floatTensor_vector _ 3 _ (by decide) (by simp [dlr.floatTensor])
            (by simp [dlr.floatTensor])
        · exact copyable_floatTensor_vector _ 2 _ (by decide) (by simp [dlr.floatTensor])
            (by simp [dlr.floatTensor]))⟩

/-- C7 as stated fails: an output of 3 rows followed by an output of 2 rows does not
make the path return `RETURN_FAIL`; a table of 6 rows is built and handed on. -/
theorem mismatched_rows_not_rejected :
    dlr.detectionTable (0 : ℚ) (fun n => (n : ℚ))
        [dlr.floatTensor [3] [11, 12, 13], dlr.floatTensor [2] [21, 22]]
      ≠ some (3, dlr.TableOutcome.RETURN_FAIL)
    ∧ dlr.detectionTable (0 : ℚ) (fun n => (n : ℚ))
        [dlr.floatTensor [3] [11, 12, 13], dlr.floatTensor [2] [21, 22]]
      = some (3, dlr.TableOutcome.table [[11], [12], [13], [21], [22], [0]]) := by
  refine ⟨?_, unequalVectors_table⟩
  rw [unequalVectors_table]
  simp

/-! ## Segmentation and the element types -/

theorem prepSegResult_unsupported {F D : Type}
    (interp : Mat D → Int → Int → D)
    (blendSegMask_int64 : D → List Int → Int → Int → Int → Int → F → D)
    (blendSegMask_float : D → List F → Int → Int → Int → Int → F → D)
    (alpha : F) (img : Mat D) (a b H W : Int) (more : List Int) (output_type : String)
    (outputs_int64 : List (List Int)) (outputs_float : List (List F))
    (wanted_width wanted_height : Int)
    (h64 : output_type ≠ "int64") (h32 : output_type ≠ "float32") :
    dlr.prepSegResult false interp blendSegMask_int64 blendSegMask_float alpha img
        (a :: b :: H :: W :: more) output_type outputs_int64 outputs_float
        wanted_width wanted_height
      = if wanted_height ≠ H ∨ wanted_width ≠ W then
          (cvResize interp img (toInt32 W) (toInt32 H)).map
            (fun resized => ⟨Status.RETURN_FAIL, resized, true, none⟩)
        else some ⟨Status.RETURN_FAIL, img, false, none⟩ := by
  unfold dlr.prepSegResult
  simp only [vecAt]
  by_cases hne : wanted_height ≠ H ∨ wanted_width ≠ W
  · simp only [if_pos hne]
    cases hres : cvResize interp img (toInt32 W) (toInt32 H) with
    | none => simp [hne, hres]
    | some resized => simp [hne, h64, h32, hres]
  · simp [hne, h64, h32]

theorem prepSegResult_formats {F D : Type}
    (interp : Mat D → Int → Int → D)
    (blendSegMask_int64 : D → List Int → Int → Int → Int → Int → F → D)
    (blendSegMask_float : D → List F → Int → Int → Int → Int → F → D)
    (alpha : F) (img : Mat D) (output_shape : List Int) (output_type : String)
    (outputs_int64 : List (List Int)) (outputs_float : List (List F))
    (wanted_width wanted_height : Int)
    (h64 : output_type ≠ "int64") (h32 : output_type ≠ "float32") :
    dlr.prepSegResult true interp blendSegMask_int64 blendSegMask_float alpha img
        output_shape output_type outputs_int64 outputs_float wanted_width wanted_height
      = none := by
  unfold dlr.prepSegResult
  split
  · simp only
    split
    · rfl
    · simp [h64, h32]
  · rfl

/-- C8, on the code: for a type tag outside the handled set both decoders of dlr call
`LOG_ERROR("output type not supported %s\n", *output_type)` before `return RETURN_FAIL`
(lines 185 and 240), passing the first `char` of the tag where `%s` takes a pointer.
With a logger that formats its arguments the call is not defined, for the tag `"uint8"`
and every other argument, and `RETURN_FAIL` is not reached; with a logger that does not
format, both decoders return `RETURN_FAIL` for that tag. -/
theorem unsupported_tag_logged_as_string {F D : Type}
    (interp : Mat D → Int → Int → D)
    (blendSegMask_int64 : D → List Int → Int → Int → Int → Int → F → D)
    (blendSegMask_float : D → List F → Int → Int → Int → Int → F → D)
    (getTopN : List F → Int → Int → F → Bool → List (F × Int))
    (overlayTopNClasses : D → List (F × Int) → List String → Int → Int → Int → D)
    (alpha threshold : F) (img : Mat D) (output_shape : List Int) (a b : Int)
    (more : List Int) (outputs_int64 : List (List Int)) (outputs_float : List (List F))
    (wanted_width wanted_height : Int) (number_of_results : Int)
    (labels_file : Option (List String)) (fetched : Option (List (List F))) :
    dlr.prepSegResult true interp blendSegMask_int64 blendSegMask_float alpha img
        output_shape "uint8" outputs_int64 outputs_float wanted_width wanted_height
      = none
    ∧ dlr.prepClassificationResult true getTopN overlayTopNClasses threshold img
        number_of_results labels_file "uint8" fetched
      = none
    ∧ dlr.prepSegResult false interp blendSegMask_int64 blendSegMask_float alpha img
        (a :: b :: wanted_height :: wanted_width :: more) "uint8" outputs_int64 outputs_float
        wanted_width wanted_height
      = some ⟨Status.RETURN_FAIL, img, false, none⟩
    ∧ dlr.prepClassificationResult false getTopN overlayTopNClasses threshold img
        number_of_results labels_file "uint8" fetched
      = some ⟨Status.RETURN_FAIL, [], [], img⟩ := by
  refine ⟨?_, ?_, ?_, ?_⟩
  · exact prepSegResult_formats interp blendSegMask_int64 blendSegMask_float alpha img
      output_shape "uint8" outputs_int64 outputs_float wanted_width wanted_height
      (by decide) (by decide)
  · simp [dlr.prepClassificationResult]
  · rw [prepSegResult_unsupported interp blendSegMask_int64 blendSegMask_float alpha img
      a b wanted_height wanted_width more "uint8" outputs_int64 outputs_float
      wanted_width wanted_height (by decide) (by decide)]
    simp
  · simp [dlr.prepClassificationResult]

/-- C9, on the code: in the segmentation branch of tflite an output of type `uint8`
matches none of the three tests; the branch calls no `blendSegMask`, leaves the image
as it was and the function returns as after a decode that succeeded. -/
theorem segmentation_uint8_completes {F D : Type}
    (blendSegMask_int32 : D → (Int → Int) → Int → Int → Int → Int → F → D)
    (blendSegMask_int64 : D → (Int → Int) → Int → Int → Int → Int → F → D)
    (blendSegMask_float : D → (Int → F) → Int → Int → Int → Int → F → D)
    (alpha : F) (img : Mat D) (dims : List Int) (f : Int → F) (i32 i64 : Int → Int)
    (uint8 : Int → Nat) (wanted_width wanted_height : Int) :
    tflite.segmentation blendSegMask_int32 blendSegMask_int64 blendSegMask_float alpha img
        ⟨tflite.TfLiteType.kTfLiteUInt8, dims, f, i32, i64, uint8⟩ wanted_width wanted_height
      = tflite.Outcome.returned ⟨img, none⟩ := by
  simp [tflite.segmentation]

theorem prepSegResult_success {F D : Type} (log_error_formats : Bool)
    (interp : Mat D → Int → Int → D)
    (blendSegMask_int64 : D → List Int → Int → Int → Int → Int → F → D)
    (blendSegMask_float : D → List F → Int → Int → Int → Int → F → D)
    (alpha : F) (img : Mat D) (a b H W : Int) (output_type : String)
    (outputs_int64 : List (List Int)) (outputs_float : List (List F))
    (wanted_width wanted_height : Int) (r : dlr.SegResult D)
    (h : dlr.prepSegResult log_error_formats interp blendSegMask_int64 blendSegMask_float
      alpha img [a, b, H, W] output_type outputs_int64 outputs_float
      wanted_width wanted_height = some r)
    (hs : r.status = Status.RETURN_SUCCESS) :
    ((wanted_height ≠ H ∨ wanted_width ≠ W) →
      r.resized = true ∧ r.img.cols = toInt32 W ∧ r.img.rows = toInt32 H
        ∧ r.blend = some ⟨toInt32 W, toInt32 H, toInt32 W, toInt32 H⟩)
    ∧ ((wanted_height = H ∧ wanted_width = W) →
      r.resized = false ∧ r.img.cols = img.cols ∧ r.img.rows = img.rows
        ∧ r.blend = some ⟨img.cols, img.rows, W, H⟩) := by
  have e2 : vecAt [a, b, H, W] 2 = some H := by simp [vecAt]
  have e3 : vecAt [a, b, H, W] 3 = some W := by simp [vecAt]
  unfold dlr.prepSegResult at h
  simp only [e2, e3] at h
  by_cases hne : wanted_height ≠ H ∨ wanted_width ≠ W
  · have hno : ¬ (wanted_height = H ∧ wanted_width = W) := by
      rintro ⟨h1, h2⟩
      rcases hne with h3 | h3
      · exact h3 h1
      · exact h3 h2
    refine ⟨fun _ => ?_, fun hc => absurd hc hno⟩
    cases hres : cvResize interp img (toInt32 W) (toInt32 H) with
    | none => simp [hne, hres] at h
    | some resized =>
      have hdim : resized.cols = toInt32 W ∧ resized.rows = toInt32 H := by
        unfold cvResize at hres
        split at hres
        · simp only [Option.some.injEq] at hres
          subst hres
          exact ⟨rfl, rfl⟩
        · exact absurd hres (by simp)
      simp only [hne, hres, if_true, Option.map_some'] at h
      by_cases h64 : output_type = "int64"
      · rw [if_pos h64] at h
        split at h
        · exact absurd h (by simp)
        · simp only [Option.some.injEq] at h
          subst h
          simp [hdim]
      · rw [if_neg h64] at h
        by_cases h32 : output_type = "float32"
        · rw [if_pos h32] at h
          split at h
          · exact absurd h (by simp)
          · simp only [Option.some.injEq] at h
            subst h
            simp [hdim]
        · rw [if_neg h32] at h
          split at h
          · exact absurd h (by simp)
          · simp only [Option.some.injEq] at h
            subst h
            exact absurd hs (by simp)
  · have heq : wanted_height = H ∧ wanted_width = W := by
      constructor
      · by_contra hc
        exact hne (Or.inl hc)
      · by_contra hc
        exact hne (Or.inr hc)
    refine ⟨fun hc => absurd hc hne, fun _ => ?_⟩
    simp only [hne, if_false] at h
    by_cases h64 : output_type = "int64"
    · rw [if_pos h64] at h
      split at h
      · exact absurd h (by simp)
      · simp only [Option.some.injEq] at h
        subst h
        simp [heq.1, heq.2]
    · rw [if_neg h64] at h
      by_cases h32 : output_type = "float32"
      · rw [if_pos h32] at h
        split at h
        · exact absurd h (by simp)
        · simp only [Option.some.injEq] at h
          subst h
          simp [heq.1, heq.2]
      · rw [if_neg h32] at h
        split at h
        · exact absurd h (by simp)
        · simp only [Option.some.injEq] at h
          subst h
          exact absurd hs (by simp)

/-- C10, as the code has it.  `prepSegResult` compares the output shape `[a, b, H, W]`
with its arguments `wanted_width`, `wanted_height`, not with the size of the image.
When they differ from `(W, H)` the image is resized to `W x H` before blending, and on
success the image size and the width and height passed to `blendSegMask` all equal
`(W, H)`; when they agree the image is not resized and keeps its size.  For an image
whose size is `(wanted_width, wanted_height)` this is the rule of the claim: it is
resized exactly when its size differs from `(W, H)`, and on success its size and the
blend size are `(W, H)`. -/
theorem seg_resize_rule {F D : Type} (log_error_formats : Bool)
    (interp : Mat D → Int → Int → D)
    (blendSegMask_int64 : D → List Int → Int → Int → Int → Int → F → D)
    (blendSegMask_float : D → List F → Int → Int → Int → Int → F → D)
    (alpha : F) (img : Mat D) (a b H W : Int) (output_type : String)
    (outputs_int64 : List (List Int)) (outputs_float : List (List F))
    (wanted_width wanted_height : Int) (r : dlr.SegResult D)
    (hH0 : -2147483648 ≤ H) (hH1 : H < 2147483648)
    (hW0 : -2147483648 ≤ W) (hW1 : W < 2147483648)
    (h : dlr.prepSegResult log_error_formats interp blendSegMask_int64 blendSegMask_float
      alpha img [a, b, H, W] output_type outputs_int64 outputs_float
      wanted_width wanted_height = some r)
    (hs : r.status = Status.RETURN_SUCCESS) :
    ((wanted_height ≠ H ∨ wanted_width ≠ W) →
      r.resized = true ∧ r.img.cols = W ∧ r.img.rows = H ∧ r.blend = some ⟨W, H, W, H⟩)
    ∧ ((wanted_height = H ∧ wanted_width = W) →
      r.resized = false ∧ r.img.cols = img.cols ∧ r.img.rows = img.rows
        ∧ r.blend = some ⟨img.cols, img.rows, W, H⟩)
    ∧ (img.cols = wanted_width → img.rows = wanted_height →
      (r.resized = true ↔ (img.rows ≠ H ∨ img.cols ≠ W))
        ∧ r.img.cols = W ∧ r.img.rows = H ∧ r.blend = some ⟨W, H, W, H⟩) := by
  obtain ⟨hyes, hno⟩ := prepSegResult_success log_error_formats interp blendSegMask_int64
    blendSegMask_float alpha img a b H W output_type outputs_int64 outputs_float wanted_width wanted_height r h hs
  rw [toInt32_of_range W hW0 hW1, toInt32_of_range H hH0 hH1] at hyes
  refine ⟨hyes, hno, ?_⟩
  intro hc hr
  by_cases hne : wanted_height ≠ H ∨ wanted_width ≠ W
  · obtain ⟨h1, h2, h3, h4⟩ := hyes hne
    refine ⟨?_, h2, h3, h4⟩
    rw [hc, hr]
    exact ⟨fun _ => hne, fun _ => h1⟩
  · have heq : wanted_height = H ∧ wanted_width = W := by
      constructor
      · by_contra hx
        exact hne (Or.inl hx)
      · by_contra hx
        exact hne (Or.inr hx)
    obtain ⟨h1, h2, h3, h4⟩ := hno heq
    rw [hc, hr, heq.1, heq.2] at h4
    rw [hc, heq.2] at h2
    rw [hr, heq.1] at h3
    refine ⟨?_, h2, h3, h4⟩
    rw [hc, hr, h1]
    constructor
    · intro hx
      exact absurd hx (by simp)
    · intro hx
      exact absurd hx hne

theorem seg_resize_rule_witness :
    (dlr.prepSegResult true (fun (m : Mat Nat) _ _ => m.data) (fun d _ _ _ _ _ (_ : ℚ) => d)
        (fun d _ _ _ _ _ _ => d) (1 / 2) ⟨4, 4, 0⟩ [1, 1, 2, 2] "float32" [] [[0, 1, 1, 0]] 4 4
      = some ⟨Status.RETURN_SUCCESS, ⟨2, 2, 0⟩, true, some ⟨2, 2, 2, 2⟩⟩)
    ∧ ((true = true ↔ ((4 : Int) ≠ 2 ∨ (4 : Int) ≠ 2))
      ∧ (2 : Int) = 2 ∧ (2 : Int) = 2
      ∧ some (⟨2, 2, 2, 2⟩ : BlendCall) = some ⟨2, 2, 2, 2⟩) :=
  have hrun : dlr.prepSegResult true (fun (m : Mat Nat) _ _ => m.data)
      (fun d _ _ _ _ _ (_ : ℚ) => d) (fun d _ _ _ _ _ _ => d) (1 / 2) ⟨4, 4, 0⟩
      [1, 1, 2, 2] "float32" [] [[0, 1, 1, 0]] 4 4
        = some ⟨Status.RETURN_SUCCESS, ⟨2, 2, 0⟩, true, some ⟨2, 2, 2, 2⟩⟩ := by
    simp [dlr.prepSegResult, vecAt, cvResize, toInt32]
  ⟨hrun,
   (seg_resize_rule true (fun (m : Mat Nat) _ _ => m.data) (fun d _ _ _ _ _ (_ : ℚ) => d)
      (fun d _ _ _ _ _ _ => d) (1 / 2) ⟨4, 4, 0⟩ 1 1 2 2 "float32" [] [[0, 1, 1, 0]] 4 4
      ⟨Status.RETURN_SUCCESS, ⟨2, 2, 0⟩, true, some ⟨2, 2, 2, 2⟩⟩
      (by decide) (by decide) (by decide) (by decide) hrun rfl).2.2 rfl rfl⟩

/-- C10 as stated fails: a `4 x 4` image passed with `wanted_width = wanted_height = 2`
and an output of shape `[1, 1, 2, 2]` differs in size from the output, and is not
resized; the call succeeds with the image still `4 x 4` and a blend of width and
height 2. -/
theorem image_size_not_compared :
    dlr.prepSegResult true (fun (m : Mat Nat) _ _ => m.data) (fun d _ _ _ _ _ (_ : ℚ) => d)
        (fun d _ _ _ _ _ _ => d) (1 / 2) ⟨4, 4, 0⟩ [1, 1, 2, 2] "float32" [] [[0, 1, 1, 0]] 2 2
      = some ⟨Status.RETURN_SUCCESS, ⟨4, 4, 0⟩, false, some ⟨4, 4, 2, 2⟩⟩ := by
  simp [dlr.prepSegResult, vecAt]

/-! ## Segmentation: resizing and failure -/

/-- C11, on the code: the segmentation branch of tflite never resizes the image and never
looks at the dimensions of the output tensor.  Whatever the tensor is, the image keeps
its size, and a blend, when there is one, is called with the size of the image and with
`wanted_width`, `wanted_height` of the configuration.  For a `2 x 2` mask with codes
`[0, 1, 1, 0]` and a `4 x 4` image pre-processed to the configured `4 x 4`, the blend is
called with width 4 and height 4; with a configured `2 x 2` the blend gets width 2 and
height 2 but the image is still `4 x 4`. -/
theorem segmentation_never_resizes {F D : Type}
    (blendSegMask_int32 : D → (Int → Int) → Int → Int → Int → Int → F → D)
    (blendSegMask_int64 : D → (Int → Int) → Int → Int → Int → Int → F → D)
    (blendSegMask_float : D → (Int → F) → Int → Int → Int → Int → F → D)
    (alpha : F) (img : Mat D) (output0 : tflite.TfLiteTensor F)
    (wanted_width wanted_height : Int) (data : D) (f : Int → F) (i64 : Int → Int)
    (uint8 : Int → Nat) :
    (∃ r, tflite.segmentation blendSegMask_int32 blendSegMask_int64 blendSegMask_float alpha
          img output0 wanted_width wanted_height = tflite.Outcome.returned r
        ∧ r.img.cols = img.cols ∧ r.img.rows = img.rows
        ∧ (r.blend = none
          ∨ r.blend = some ⟨img.cols, img.rows, wanted_width, wanted_height⟩))
    ∧ (∃ r, tflite.segmentation blendSegMask_int32 blendSegMask_int64 blendSegMask_float alpha
          ⟨4, 4, data⟩
          ⟨tflite.TfLiteType.kTfLiteInt32, [1, 2, 2, 1], f,
            fun k => ([0, 1, 1, 0] : List Int).getD k.toNat 0, i64, uint8⟩ 4 4
          = tflite.Outcome.returned r
        ∧ r.img.cols = 4 ∧ r.img.rows = 4 ∧ r.blend = some ⟨4, 4, 4, 4⟩)
    ∧ (∃ r, tflite.segmentation blendSegMask_int32 blendSegMask_int64 blendSegMask_float alpha
          ⟨4, 4, data⟩
          ⟨tflite.TfLiteType.kTfLiteInt32, [1, 2, 2, 1], f,
            fun k => ([0, 1, 1, 0] : List Int).getD k.toNat 0, i64, uint8⟩ 2 2
          = tflite.Outcome.returned r
        ∧ r.img.cols = 4 ∧ r.img.rows = 4 ∧ r.blend = some ⟨4, 4, 2, 2⟩) := by
  refine ⟨?_, ?_, ?_⟩
  · unfold tflite.segmentation
    simp only
    split
    · exact ⟨_, rfl, rfl, rfl, Or.inr rfl⟩
    · split
      · exact ⟨_, rfl, rfl, rfl, Or.inr rfl⟩
      · split
        · exact ⟨_, rfl, rfl, rfl, Or.inr rfl⟩
        · exact ⟨_, rfl, rfl, rfl, Or.inl rfl⟩
  · exact ⟨⟨⟨4, 4, blendSegMask_int32 data
        (fun k => ([0, 1, 1, 0] : List Int).getD k.toNat 0) 4 4 4 4 alpha⟩,
      some ⟨4, 4, 4, 4⟩⟩, by simp [tflite.segmentation], rfl, rfl, rfl⟩
  · exact ⟨⟨⟨4, 4, blendSegMask_int32 data
        (fun k => ([0, 1, 1, 0] : List Int).getD k.toNat 0) 4 4 2 2 alpha⟩,
      some ⟨4, 4, 2, 2⟩⟩, by simp [tflite.segmentation], rfl, rfl, rfl⟩

theorem vecAt_of_length_le {α : Type} (v : List α) (i : Int) (h : (v.length : Int) ≤ i) :
    vecAt v i = none := by
  unfold vecAt
  rw [if_neg (by omega)]
  exact List.get?_eq_none.mpr (by omega)

theorem dlr_loggedLabels_overrun {F : Type} (labels : List String) (output_size : Int) :
    ∀ (top_results : List (F × Int)),
      (∃ result ∈ top_results,
        (labels.length : Int) ≤ result.2 + dlr.outputoffset output_size) →
      dlr.loggedLabels labels output_size top_results = none
  | [], h => by
    obtain ⟨result, hmem, _⟩ := h
    exact absurd hmem (List.not_mem_nil _)
  | first :: rest, h => by
    obtain ⟨result, hmem, hle⟩ := h
    rw [dlr.loggedLabels]
    rcases List.mem_cons.mp hmem with rfl | hrest
    · rw [dlr.labelIndex, vecAt_of_length_le labels _ hle]
    · rw [dlr_loggedLabels_overrun labels output_size rest ⟨result, hrest, hle⟩]
      cases vecAt labels (dlr.labelIndex output_size first.2) <;> rfl

theorem tflite_loggedLabels_overrun {F : Type} (labels : List String) (output_size : Int) :
    ∀ (top_results : List (F × Int)),
      (∃ result ∈ top_results,
        (labels.length : Int) ≤ result.2 + tflite.outputoffset output_size) →
      tflite.loggedLabels labels output_size top_results = none
  | [], h => by
    obtain ⟨result, hmem, _⟩ := h
    exact absurd hmem (List.not_mem_nil _)
  | first :: rest, h => by
    obtain ⟨result, hmem, hle⟩ := h
    rw [tflite.loggedLabels]
    rcases List.mem_cons.mp hmem with rfl | hrest
    · rw [tflite.labelIndex, vecAt_of_length_le labels _ hle]
    · rw [tflite_loggedLabels_overrun labels output_size rest ⟨result, hrest, hle⟩]
      cases vecAt labels (tflite.labelIndex output_size first.2) <;> rfl

theorem dlr_label_overrun {F D : Type} (log_error_formats : Bool)
    (getTopN : List F → Int → Int → F → Bool → List (F × Int))
    (overlayTopNClasses : D → List (F × Int) → List String → Int → Int → Int → D)
    (threshold : F) (img : Mat D) (number_of_results : Int) (labels : List String)
    (outputs0 : List F) (rest : List (List F))
    (h : ∃ result ∈ getTopN outputs0 1000 number_of_results threshold true,
      (labels.length : Int) ≤ result.2 + dlr.outputoffset (toInt32 outputs0.length)) :
    dlr.prepClassificationResult log_error_formats getTopN overlayTopNClasses threshold img
      number_of_results (some labels) "float32" (some (outputs0 :: rest)) = none := by
  simp only [dlr.prepClassificationResult, if_true]
  rw [dlr_loggedLabels_overrun labels _ _ h]

theorem tflite_label_overrun {F D : Type}
    (get_top_n_float : (Int → F) → Int → Int → F → Bool → List (F × Int))
    (get_top_n_uint8 : (Int → Nat) → Int → Int → F → Bool → List (F × Int))
    (overlayTopNClasses : D → List (F × Int) → List String → Int → Int → Int → D)
    (threshold : F) (img : Mat D) (number_of_results : Int) (labels : List String)
    (dims : List Int) (f : Int → F) (i32 i64 : Int → Int) (uint8 : Int → Nat) (L : Int)
    (hL : dims.getLast? = some L)
    (h : ∃ result ∈ get_top_n_float f L number_of_results threshold true,
      (labels.length : Int) ≤ result.2 + tflite.outputoffset L) :
    tflite.classification get_top_n_float get_top_n_uint8 overlayTopNClasses threshold img
      number_of_results (some labels)
      ⟨tflite.TfLiteType.kTfLiteFloat32, dims, f, i32, i64, uint8⟩ = none := by
  simp only [tflite.classification, vecAt_length_sub_one, hL]
  rw [tflite_loggedLabels_overrun labels _ _ h]

/-- C13, on the code: neither classification path compares a label index with the size
of the label table.  For a score vector of 1000 entries whose top result is class 999
and a label file of 1000 lines, both paths read `labels[999 + 1]`, outside the table:
the run leaves defined behaviour; it is not a failure reported by `RETURN_FAIL` or by
`exit`. -/
theorem label_read_unchecked (log_error_formats : Bool) :
    dlr.prepClassificationResult log_error_formats
        (fun _ _ _ _ _ => [((9 / 10 : ℚ), (999 : Int))])
        (fun (d : Nat) _ _ _ _ _ => d) (1 / 1000) ⟨4, 4, 0⟩ 1
        (some (List.replicate 1000 "label")) "float32"
        (some [List.replicate 999 0 ++ [9 / 10]])
      = none
    ∧ tflite.classification (fun _ _ _ _ _ => [((9 / 10 : ℚ), (999 : Int))])
        (fun _ _ _ _ _ => [])
        (fun (d : Nat) _ _ _ _ _ => d) (1 / 1000) ⟨4, 4, 0⟩ 1
        (some (List.replicate 1000 "label"))
        ⟨tflite.TfLiteType.kTfLiteFloat32, [1, 1000], fun _ => 0, fun _ => 0, fun _ => 0,
          fun _ => 0⟩
      = none
    ∧ vecAt (List.replicate 1000 "label") (dlr.labelIndex 1000 999) = none
    ∧ vecAt (List.replicate 1000 "label") (tflite.labelIndex 1000 999) = none := by
  refine ⟨?_, ?_, ?_, ?_⟩
  · apply dlr_label_overrun
    refine ⟨(9 / 10, 999), List.mem_singleton.mpr rfl, ?_⟩
    simp only [List.length_replicate, List.length_append, List.length_singleton]
    decide
  · apply tflite_label_overrun _ _ _ _ _ _ _ [1, 1000] _ _ _ _ 1000 rfl
    refine ⟨(9 / 10, 999), List.mem_singleton.mpr rfl, ?_⟩
    simp only [List.length_replicate]
    decide
  · apply vecAt_of_length_le
    simp only [List.length_replicate]
    decide
  · apply vecAt_of_length_le
    simp only [List.length_replicate]
    decide

/-- C14, on the code: `prepClassificationResult` of dlr hands `getTopN` the constant 1000
as the number of scores, whatever the length `L` of the score vector is; the top results
it works with are those of `getTopN` on 1000 scores.  For a score vector of length 1001
and a `getTopN` that reports the number of scores it was given, that number is 1000. -/
theorem dlr_top_n_size_is_1000 {F D : Type} (log_error_formats : Bool)
    (getTopN : List F → Int → Int → F → Bool → List (F × Int))
    (overlayTopNClasses : D → List (F × Int) → List String → Int → Int → Int → D)
    (threshold : F) (img : Mat D) (number_of_results : Int) (labels : List String)
    (outputs0 : List F) (rest : List (List F)) :
    (dlr.prepClassificationResult log_error_formats getTopN overlayTopNClasses threshold img
        number_of_results (some labels) "float32" (some (outputs0 :: rest))).map
          (fun r => r.top_results)
      = (dlr.loggedLabels labels (toInt32 outputs0.length)
          (getTopN outputs0 1000 number_of_results threshold true)).map
            (fun _ => getTopN outputs0 1000 number_of_results threshold true)
    ∧ (dlr.prepClassificationResult log_error_formats
          (fun (_ : List ℚ) prediction_size _ _ _ => [((0 : ℚ), prediction_size)])
          (fun (d : Nat) _ _ _ _ _ => d) (1 / 1000) ⟨4, 4, 0⟩ 1
          none "float32" (some [List.replicate 1001 0])
        = some ⟨Status.RETURN_FAIL, [(0, 1000)], [], ⟨4, 4, 0⟩⟩) := by
  constructor
  · simp only [dlr.prepClassificationResult, if_true]
    cases hlog : dlr.loggedLabels labels (toInt32 outputs0.length)
        (getTopN outputs0 1000 number_of_results threshold true) with
    | none => simp
    | some logged => simp
  · simp [dlr.prepClassificationResult]

/-! ## Detection (dlr): the `int64` tag and shapes of ones -/

/-- C15, on the code: in the detection path of dlr the tag of an output is compared with
`"int64"` as a pointer (line 457).  For an output whose tag is the string `"int64"`, held
at another address than the literal of `dlr_main.cpp`, the test is false and the loop
returns `RETURN_FAIL` as soon as it reaches that output (whenever its
values-per-detection is defined): nothing of it is converted or appended. -/
theorem int64_tag_rejected {F : Type} (zero : F) (ofInt64 : Int → F) (nboxes : Nat)
    (shape : List Int) (size : Nat) (floats : Nat → F) (int64s : Nat → Int)
    (get_output_ok : Bool) (rest : List (dlr.OutputTensor F))
    (f_tensor_unformatted : List (List F)) :
    dlr.tableLoop zero ofInt64 nboxes
        (⟨shape, "int64", false, size, floats, int64s, get_output_ok⟩ :: rest)
        f_tensor_unformatted
      = (dlr.num_val_tensor shape).map (fun _ => dlr.TableOutcome.RETURN_FAIL)
    ∧ dlr.detectionTable (0 : ℚ) (fun n => (n : ℚ))
        [⟨[2], "int64", false, 2, fun _ => 0, fun k => ([3, 7] : List Int).getD k 0, true⟩]
      = some (2, dlr.TableOutcome.RETURN_FAIL) := by
  constructor
  · rw [dlr.tableLoop]
    cases hval : dlr.num_val_tensor shape with
    | none => simp
    | some num_val => simp
  · simp [dlr.detectionTable, dlr.tableLoop, num_val_tensor_eq]

/-- C17, on the code: for a shape whose dimensions are all 1 the erase loop leaves
nothing, the test `temp.size() == 1` is false, and `temp[temp.size() - 1]` is a read at
the largest `size_t` index of an empty vector: the computation of `num_val_tensor` has
no defined result, for `[1]`, `[1, 1]` and every other number of ones. -/
theorem shape_of_ones_undefined (n : Nat) :
    dlr.num_val_tensor (List.replicate n 1) = none
    ∧ dlr.num_val_tensor [1] = none ∧ dlr.num_val_tensor [1, 1] = none
    ∧ dlr.eraseLoop [1, 1] 0 = [] := by
  have hfilter : ∀ m : Nat,
      (List.replicate m (1 : Int)).filter (fun d => decide (d ≠ 1)) = [] := by
    intro m
    rw [List.filter_eq_nil_iff]
    intro d hd
    rw [List.mem_replicate] at hd
    simp [hd.2]
  have hall : ∀ m : Nat, dlr.num_val_tensor (List.replicate m 1) = none := by
    intro m
    rw [num_val_tensor_eq, hfilter m]
    simp [vecAt]
  refine ⟨hall n, hall 1, hall 2, ?_⟩
  rw [eraseLoop_zero]
  exact hfilter 2

/-! ## Classification (tflite): how a failure ends -/

theorem classification_unsupported_exits {F D : Type}
    (get_top_n_float : (Int → F) → Int → Int → F → Bool → List (F × Int))
    (get_top_n_uint8 : (Int → Nat) → Int → Int → F → Bool → List (F × Int))
    (overlayTopNClasses : D → List (F × Int) → List String → Int → Int → Int → D)
    (threshold : F) (img : Mat D) (number_of_results : Int)
    (labels_file : Option (List String)) (output0 : tflite.TfLiteTensor F) (L : Int)
    (hL : output0.dims.getLast? = some L)
    (h32 : output0.type ≠ tflite.TfLiteType.kTfLiteFloat32)
    (h8 : output0.type ≠ tflite.TfLiteType.kTfLiteUInt8) :
    tflite.classification get_top_n_float get_top_n_uint8 overlayTopNClasses threshold img
      number_of_results labels_file output0 = some (tflite.Outcome.exit (-1)) := by
  simp only [tflite.classification, vecAt_length_sub_one, hL]

theorem classification_no_labels_exits {F D : Type}
    (get_top_n_float : (Int → F) → Int → Int → F → Bool → List (F × Int))
    (get_top_n_uint8 : (Int → Nat) → Int → Int → F → Bool → List (F × Int))
    (overlayTopNClasses : D → List (F × Int) → List String → Int → Int → Int → D)
    (threshold : F) (img : Mat D) (number_of_results : Int)
    (output0 : tflite.TfLiteTensor F) (L : Int)
    (hL : output0.dims.getLast? = some L) :
    tflite.classification get_top_n_float get_top_n_uint8 overlayTopNClasses threshold img
      number_of_results none output0 = some (tflite.Outcome.exit (-1)) := by
  simp only [tflite.classification, vecAt_length_sub_one, hL]
  split
  · rfl
  · rfl

/-- C16, as the code has it.  In the classification decode of tflite a failure ends the
process: for an output element type other than `float32` and `uint8`, and for a label
file that cannot be read, `RunInference` calls `exit(-1)` and does not return to its
caller. -/
theorem classification_failure_exits {F D : Type}
    (get_top_n_float : (Int → F) → Int → Int → F → Bool → List (F × Int))
    (get_top_n_uint8 : (Int → Nat) → Int → Int → F → Bool → List (F × Int))
    (overlayTopNClasses : D → List (F × Int) → List String → Int → Int → Int → D)
    (threshold : F) (img : Mat D) (number_of_results : Int)
    (labels_file : Option (List String)) (output0 : tflite.TfLiteTensor F) (L : Int)
    (hL : output0.dims.getLast? = some L) :
    (output0.type ≠ tflite.TfLiteType.kTfLiteFloat32 →
      output0.type ≠ tflite.TfLiteType.kTfLiteUInt8 →
      tflite.classification get_top_n_float get_top_n_uint8 overlayTopNClasses threshold img
        number_of_results labels_file output0 = some (tflite.Outcome.exit (-1)))
    ∧ tflite.classification get_top_n_float get_top_n_uint8 overlayTopNClasses threshold img
        number_of_results none output0 = some (tflite.Outcome.exit (-1)) :=
  ⟨classification_unsupported_exits get_top_n_float get_top_n_uint8 overlayTopNClasses
      threshold img number_of_results labels_file output0 L hL,
   classification_no_labels_exits get_top_n_float get_top_n_uint8 overlayTopNClasses
      threshold img number_of_results output0 L hL⟩

theorem classification_failure_exits_witness :
    tflite.classification (fun _ _ _ _ _ => ([] : List (ℚ × Int))) (fun _ _ _ _ _ => [])
        (fun (d : Nat) _ _ _ _ _ => d) (1 / 1000) ⟨4, 4, 0⟩ 1 (some ["background", "cat"])
        ⟨tflite.TfLiteType.kTfLiteInt32, [1, 1001], fun _ => 0, fun _ => 0, fun _ => 0,
          fun _ => 0⟩
      = some (tflite.Outcome.exit (-1)) :=
  (classification_failure_exits (fun _ _ _ _ _ => ([] : List (ℚ × Int))) (fun _ _ _ _ _ => [])
    (fun (d : Nat) _ _ _ _ _ => d) (1 / 1000) ⟨4, 4, 0⟩ 1 (some ["background", "cat"])
    ⟨tflite.TfLiteType.kTfLiteInt32, [1, 1001], fun _ => 0, fun _ => 0, fun _ => 0,
      fun _ => 0⟩ 1001 rfl).1 (by decide) (by decide)

/-- C16 as stated fails: for an output of type `int32`, and for a `float32` output with a
label file that cannot be read, the classification decode ends in `exit(-1)`; it does
not return. -/
theorem classification_exit_not_return :
    tflite.classification (fun _ _ _ _ _ => ([] : List (ℚ × Int))) (fun _ _ _ _ _ => [])
        (fun (d : Nat) _ _ _ _ _ => d) (1 / 1000) ⟨4, 4, 0⟩ 1 (some ["background", "cat"])
        ⟨tflite.TfLiteType.kTfLiteInt32, [1, 1001], fun _ => 0, fun _ => 0, fun _ => 0,
          fun _ => 0⟩
      = some (tflite.Outcome.exit (-1))
    ∧ tflite.classification (fun _ _ _ _ _ => ([] : List (ℚ × Int))) (fun _ _ _ _ _ => [])
        (fun (d : Nat) _ _ _ _ _ => d) (1 / 1000) ⟨4, 4, 0⟩ 1 none
        ⟨tflite.TfLiteType.kTfLiteFloat32, [1, 1001], fun _ => 0, fun _ => 0, fun _ => 0,
          fun _ => 0⟩
      = some (tflite.Outcome.exit (-1))
    ∧ ∀ r, (some (tflite.Outcome.exit (-1)) :
        Option (tflite.Outcome (tflite.ClassificationResult ℚ Nat)))
          ≠ some (tflite.Outcome.returned r) := by
  refine ⟨?_, ?_, ?_⟩
  · exact classification_unsupported_exits _ _ _ _ _ _ _ _ 1001 rfl (by decide) (by decide)
  · exact classification_no_labels_exits _ _ _ _ _ _ _ 1001 rfl
  · intro r h
    cases h

/-! ## Detection from a fused tensor (tflite): coordinates and columns -/

theorem flatten_rowLocation_getElem {F : Type} (div : F → F → F) (out_tensor : Int → F)
    (res_dim : Int) (inDataHeight : F) :
    ∀ (rows : List Nat) (d j : Nat), j < 4 →
      ((rows.map (tflite.rowLocation div out_tensor res_dim inDataHeight)).flatten)[4 * d + j]?
        = (rows[d]?).map
            (fun i => div (out_tensor ((i : Int) * res_dim + ((j : Int) + 1))) inDataHeight)
  | [], d, j, _ => by simp
  | i :: rows, 0, j, hj => by
    have hcases : j = 0 ∨ j = 1 ∨ j = 2 ∨ j = 3 := by omega
    rcases hcases with rfl | rfl | rfl | rfl <;> simp [tflite.rowLocation]
  | i :: rows, d + 1, j, hj => by
    have hlen : (tflite.rowLocation div out_tensor res_dim inDataHeight i).length
        ≤ 4 * (d + 1) + j := by
      simp [tflite.rowLocation]
      omega
    rw [List.map_cons, List.flatten_cons, List.getElem?_append_right hlen]
    have hidx : 4 * (d + 1) + j
        - (tflite.rowLocation div out_tensor res_dim inDataHeight i).length = 4 * d + j := by
      simp [tflite.rowLocation]
      omega
    rw [hidx, flatten_rowLocation_getElem div out_tensor res_dim inDataHeight rows d j hj]
    simp

/-- C18. In the fused-tensor path of tflite the coordinates of the `d`-th emitted
detection, which is the `d`-th row `i` of the tensor with score above the threshold,
are the entries `4 * d + j` of `detectection_location`, `j = 0, 1, 2, 3`, and the entry
`4 * d + j` is the raw value of column `j + 1` of row `i` divided by `inDataHeight`. -/
theorem emitted_coordinates {F : Type} (gt : F → F → Bool) (div : F → F → F)
    (output0 : tflite.TfLiteTensor F) (inDataHeight threshold : F)
    (outer : List Int) (num_res res_dim : Int)
    (hdims : output0.dims = outer ++ [num_res, res_dim]) :
    ∃ st, tflite.fusedDetection gt div output0 inDataHeight threshold = some st
      ∧ st.num_detections
          = ((tflite.keptRows gt output0.f res_dim num_res threshold).length : Int)
      ∧ ∀ (d j : Nat) (i : Nat),
          (tflite.keptRows gt output0.f res_dim num_res threshold)[d]? = some i → j < 4 →
          st.detectection_location[4 * d + j]?
            = some (div (output0.f ((i : Int) * res_dim + ((j : Int) + 1))) inDataHeight) := by
  refine ⟨_, fusedDetection_eq gt div output0 inDataHeight threshold outer num_res res_dim hdims,
    ?_, ?_⟩
  · rw [detectionLoop_eq]
  · intro d j i hi hj
    rw [detectionLoop_eq]
    simp only
    rw [flatten_rowLocation_getElem div output0.f res_dim inDataHeight _ d j hj, hi]
    rfl

theorem emitted_coordinates_witness :
    tflite.exampleRow.dims = [1] ++ [1, 6]
    ∧ ∃ st, tflite.fusedDetection tflite.gtQ tflite.divQ tflite.exampleRow 1 (1 / 2) = some st
      ∧ st.num_detections
          = ((tflite.keptRows tflite.gtQ tflite.exampleRow.f 6 1 (1 / 2)).length : Int)
      ∧ ∀ (d j : Nat) (i : Nat),
          (tflite.keptRows tflite.gtQ tflite.exampleRow.f 6 1 (1 / 2))[d]? = some i → j < 4 →
          st.detectection_location[4 * d + j]?
            = some (tflite.divQ (tflite.exampleRow.f ((i : Int) * 6 + ((j : Int) + 1))) 1) :=
  ⟨rfl, emitted_coordinates tflite.gtQ tflite.divQ tflite.exampleRow 1 (1 / 2) [1] 1 6 rfl⟩

theorem detectionStep_reads_columns {F : Type} (gt : F → F → Bool) (div : F → F → F)
    (out_tensor other_tensor : Int → F) (res_dim : Int) (inDataHeight threshold : F)
    (st : tflite.Detections F) (i : Int)
    (h : ∀ c ∈ tflite.columnsRead res_dim i, out_tensor c = other_tensor c) :
    tflite.detectionStep gt div out_tensor res_dim inDataHeight threshold st i
      = tflite.detectionStep gt div other_tensor res_dim inDataHeight threshold st i := by
  have h1 := h (i * res_dim + 1) (by simp [tflite.columnsRead])
  have h2 := h (i * res_dim + 2) (by simp [tflite.columnsRead])
  have h3 := h (i * res_dim + 3) (by simp [tflite.columnsRead])
  have h4 := h (i * res_dim + 4) (by simp [tflite.columnsRead])
  have h5 := h (i * res_dim + res_dim - 2) (by simp [tflite.columnsRead])
  have h6 := h (i * res_dim + res_dim - 1) (by simp [tflite.columnsRead])
  simp only [tflite.detectionStep, h1, h2, h3, h4, h5, h6]

/-- C20, as the code has it.  The offsets an iteration of the fused-tensor loop reads for
row `i` are those of `columnsRead` (the iteration depends on the tensor through them
alone).  For every row width `res_dim >= 6` they all lie inside the span
`[i * res_dim, (i + 1) * res_dim)` of the row; they are pairwise distinct for every
`res_dim >= 7`, and for `res_dim = 6` the score column `res_dim - 2` is column 4, the
column of the fourth coordinate. -/
theorem columns_read_in_row (res_dim i : Int) :
    (6 ≤ res_dim → ∀ c ∈ tflite.columnsRead res_dim i,
        i * res_dim ≤ c ∧ c < (i + 1) * res_dim)
    ∧ (7 ≤ res_dim → (tflite.columnsRead res_dim i).Nodup)
    ∧ (res_dim = 6 → i * res_dim + res_dim - 2 = i * res_dim + 4) := by
  refine ⟨?_, ?_, ?_⟩
  · intro h c hc
    rw [add_mul, one_mul]
    simp only [tflite.columnsRead, List.mem_cons, List.mem_singleton, List.not_mem_nil,
      or_false] at hc
    rcases hc with rfl | rfl | rfl | rfl | rfl | rfl <;> constructor <;> omega
  · intro h
    simp only [tflite.columnsRead, List.nodup_cons, List.mem_cons, List.mem_singleton,
      List.not_mem_nil, or_false, not_or, List.nodup_nil, and_true, not_false_eq_true]
    refine ⟨⟨?_, ?_, ?_, ?_, ?_⟩, ⟨?_, ?_, ?_, ?_⟩, ⟨?_, ?_, ?_⟩, ⟨?_, ?_⟩, ?_⟩ <;> omega
  · intro h
    omega

theorem columns_read_in_row_witness :
    (∀ c ∈ tflite.columnsRead 7 2, (2 : Int) * 7 ≤ c ∧ c < (2 + 1) * 7)
    ∧ (tflite.columnsRead 7 2).Nodup :=
  ⟨(columns_read_in_row 7 2).1 (by decide), (columns_read_in_row 7 2).2.1 (by decide)⟩

/-- C20 as stated fails: for the row width `res_dim = 6` the six offsets read for row 0
are 1, 2, 3, 4, 4, 5; the score and the fourth coordinate are read from the same
column, so for the row `[10, 20, 50, 80, 3, 0.8]` both are the value 3. -/
theorem columns_overlap_at_six :
    tflite.columnsRead 6 0 = [1, 2, 3, 4, 4, 5]
    ∧ ¬ (tflite.columnsRead 6 0).Nodup
    ∧ tflite.rowScore tflite.exampleRow.f 6 0 = 3
    ∧ (tflite.rowLocation tflite.divQ tflite.exampleRow.f 6 1 0)[3]? = some 3 := by
  refine ⟨by decide, by decide, ?_, ?_⟩
  · simp [tflite.rowScore, tflite.exampleRow, tflite.bufferOf]
  · simp [tflite.rowLocation, tflite.exampleRow, tflite.bufferOf, tflite.divQ]

/-! ## The input switch (tflite) -/

/-- C19. In the `uint8` branch of the switch on the input type, `preprocImage` is called
with a configuration whose `scale` is `{1, 1, 1}` and whose `mean` is `{0, 0, 0}`, and
after the branch `scale` and `mean` hold the values they had before it, for every
initial `scale` and `mean` (and whatever `preprocImage` does to the configuration it is
passed). -/
theorem uint8_branch_restores {F C D : Type}
    (preprocImage_float : tflite.PreprocessImageConfig F C →
      Mat D × tflite.PreprocessImageConfig F C)
    (preprocImage_uint8 : tflite.PreprocessImageConfig F C →
      Mat D × tflite.PreprocessImageConfig F C)
    (one zero : F) (m_preProcCfg : tflite.PreprocessImageConfig F C) :
    ∃ r, tflite.preprocessInput preprocImage_float preprocImage_uint8 one zero
          tflite.TfLiteType.kTfLiteUInt8 m_preProcCfg = tflite.Outcome.returned r
      ∧ r.preprocessed_with.scale = [one, one, one]
      ∧ r.preprocessed_with.mean = [zero, zero, zero]
      ∧ r.preprocessed_with.others = m_preProcCfg.others
      ∧ r.img = (preprocImage_uint8 r.preprocessed_with).1
      ∧ r.m_preProcCfg.scale = m_preProcCfg.scale
      ∧ r.m_preProcCfg.mean = m_preProcCfg.mean :=
  ⟨_, rfl, rfl, rfl, rfl, rfl, rfl, rfl⟩

/-! ## Detection from a fused tensor (tflite): the sizes of the vectors -/

theorem length_flatten_rowLocation {F : Type} (div : F → F → F) (out_tensor : Int → F)
    (res_dim : Int) (inDataHeight : F) :
    ∀ (rows : List Nat),
      ((rows.map (tflite.rowLocation div out_tensor res_dim inDataHeight)).flatten).length
        = 4 * rows.length
  | [] => rfl
  | i :: rows => by
    rw [List.map_cons, List.flatten_cons, List.length_append,
      length_flatten_rowLocation div out_tensor res_dim inDataHeight rows, List.length_cons]
    simp only [tflite.rowLocation, List.length_cons, List.length_nil]
    omega

/-- C21. In the fused-tensor path of tflite, after the scan `num_detections` is the number
of rows whose score is greater than the threshold, `detectection_scores` and
`detectection_classes` have `num_detections` entries and `detectection_location` has
`4 * num_detections`; so for every `i < num_detections` and `j < 4` the indices `i` and
`i * 4 + j` read by the code after the loop are inside the vectors. -/
theorem detection_vector_sizes {F : Type} (gt : F → F → Bool) (div : F → F → F)
    (output0 : tflite.TfLiteTensor F) (inDataHeight threshold : F)
    (outer : List Int) (num_res res_dim : Int)
    (hdims : output0.dims = outer ++ [num_res, res_dim]) :
    ∃ st, tflite.fusedDetection gt div output0 inDataHeight threshold = some st
      ∧ st.num_detections
          = (((List.range num_res.toNat).countP
              (fun (i : Nat) =>
                gt (output0.f ((i : Int) * res_dim + res_dim - 2)) threshold) : Nat) : Int)
      ∧ (st.detectection_scores.length : Int) = st.num_detections
      ∧ (st.detectection_classes.length : Int) = st.num_detections
      ∧ (st.detectection_location.length : Int) = 4 * st.num_detections
      ∧ ∀ i j : Nat, (i : Int) < st.num_detections → j < 4 →
          (vecAt st.detectection_scores (i : Int)).isSome = true
          ∧ (vecAt st.detectection_classes (i : Int)).isSome = true
          ∧ i * 4 + j < st.detectection_location.length
          ∧ (vecAt st.detectection_location ((i : Int) * 4 + (j : Int))).isSome = true := by
  refine ⟨_, fusedDetection_eq gt div output0 inDataHeight threshold outer num_res res_dim hdims,
    ?_⟩
  rw [detectionLoop_eq]
  refine ⟨?_, ?_, ?_, ?_, ?_⟩
  · rw [List.countP_eq_length_filter]
    rfl
  · simp only [List.length_map]
  · simp only [List.length_map]
  · simp only [length_flatten_rowLocation]
    push_cast
    rfl
  · intro i j hi hj
    have hi2 : i < (tflite.keptRows gt output0.f res_dim num_res threshold).length := by
      simp only at hi
      exact_mod_cast hi
    have hloc : i * 4 + j
        < 4 * (tflite.keptRows gt output0.f res_dim num_res threshold).length := by
      omega
    have hcast : (i : Int) * 4 + (j : Int) = ((i * 4 + j : Nat) : Int) := by
      push_cast
      rfl
    simp only [length_flatten_rowLocation]
    refine ⟨?_, ?_, hloc, ?_⟩
    · rw [vecAt_natCast, List.get?_eq_getElem?]
      simp [hi2]
    · rw [vecAt_natCast, List.get?_eq_getElem?]
      simp [hi2]
    · rw [hcast, vecAt_natCast, List.get?_eq_getElem?, List.getElem?_eq_getElem
        (by rw [length_flatten_rowLocation]; exact hloc)]
      rfl

theorem detection_vector_sizes_witness :
    tflite.exampleRow.dims = [1] ++ [1, 6]
    ∧ ∃ st, tflite.fusedDetection tflite.gtQ tflite.divQ tflite.exampleRow 1 (1 / 2) = some st
      ∧ st.num_detections
          = (((List.range (1 : Int).toNat).countP
              (fun (i : Nat) =>
                tflite.gtQ (tflite.exampleRow.f ((i : Int) * 6 + 6 - 2)) (1 / 2)) : Nat) : Int)
      ∧ (st.detectection_scores.length : Int) = st.num_detections
      ∧ (st.detectection_classes.length : Int) = st.num_detections
      ∧ (st.detectection_location.length : Int) = 4 * st.num_detections
      ∧ ∀ i j : Nat, (i : Int) < st.num_detections → j < 4 →
          (vecAt st.detectection_scores (i : Int)).isSome = true
          ∧ (vecAt st.detectection_classes (i : Int)).isSome = true
          ∧ i * 4 + j < st.detectection_location.length
          ∧ (vecAt st.detectection_location ((i : Int) * 4 + (j : Int))).isSome = true :=
  ⟨rfl, detection_vector_sizes tflite.gtQ tflite.divQ tflite.exampleRow 1 (1 / 2) [1] 1 6 rfl⟩

/-! ## The value `runInference` of dlr returns -/

theorem taskBranch_status {F D : Type} (taskType : String)
    (classification : Option (dlr.ClassificationResult F D))
    (detection : Option (Nat × dlr.TableOutcome F))
    (prepDetectionResult : List (List F) → Nat → Status)
    (segmentation : Option (dlr.SegResult D)) (status : Status)
    (h : dlr.taskBranch taskType classification detection prepDetectionResult segmentation
      = some (some status)) :
    status = Status.RETURN_FAIL := by
  unfold dlr.taskBranch at h
  split at h
  · split at h
    · exact absurd h (by simp)
    · split at h
      · simp only [Option.some.injEq] at h
        exact h.symm
      · exact absurd h (by simp)
  · split at h
    · split at h
      · exact absurd h (by simp)
      · simp only [Option.some.injEq] at h
        exact h.symm
      · split at h
        · simp only [Option.some.injEq] at h
          exact h.symm
        · exact absurd h (by simp)
    · split at h
      · split at h
        · exact absurd h (by simp)
        · split at h
          · simp only [Option.some.injEq] at h
            exact h.symm
          · exact absurd h (by simp)
      · exact absurd h (by simp)

/-- C22, on the code: `runInference` of dlr has no `return RETURN_SUCCESS`.  On every run
the value it returns is `RETURN_FAIL` or is not defined; on a run in which no step
failed the function reaches its closing brace without a `return`, so the value that
`main` compares with `RETURN_FAIL` is not defined. -/
theorem runInference_never_returns_success {F D : Type} (steps : dlr.RunSteps)
    (classification : Option (dlr.ClassificationResult F D))
    (detection : Option (Nat × dlr.TableOutcome F))
    (prepDetectionResult : List (List F) → Nat → Status)
    (segmentation : Option (dlr.SegResult D)) (r : dlr.ClassificationResult F D) :
    (dlr.runInference steps classification detection prepDetectionResult segmentation
        = some Status.RETURN_FAIL
      ∨ dlr.runInference steps classification detection prepDetectionResult segmentation
        = none)
    ∧ dlr.runInference dlr.cleanRun
        (some ⟨Status.RETURN_SUCCESS, r.top_results, r.logged, r.img⟩)
        detection prepDetectionResult segmentation = none
    ∧ dlr.mainTest (dlr.runInference dlr.cleanRun
        (some ⟨Status.RETURN_SUCCESS, r.top_results, r.logged, r.img⟩)
        detection prepDetectionResult segmentation) = none := by
  have hclean : dlr.runInference dlr.cleanRun
      (some ⟨Status.RETURN_SUCCESS, r.top_results, r.logged, r.img⟩)
      detection prepDetectionResult segmentation = none := by
    simp [dlr.runInference, dlr.cleanRun, dlr.taskBranch]
  refine ⟨?_, hclean, ?_⟩
  · unfold dlr.runInference
    split
    · exact Or.inl rfl
    · split
      · exact Or.inl rfl
      · split
        · exact Or.inl rfl
        · split
          · exact Or.inl rfl
          · split
            · exact Or.inl rfl
            · split
              · exact Or.inl rfl
              · split
                · exact Or.inl rfl
                · split
                  · exact Or.inl rfl
                  · split
                    · exact Or.inr rfl
                    · rename_i status hbranch
                      rw [taskBranch_status steps.taskType classification detection
                        prepDetectionResult segmentation status hbranch]
                      exact Or.inl rfl
                    · exact Or.inr rfl
  · rw [hclean]
    rfl
